import Mathlib

/-!
# A shallow embedding of rellic's `Z3ConvVisitor.cpp`

This file models the bidirectional translator between a C-like expression AST
(clang) and Z3 terms, as implemented in `src/rellic/AST/Z3ConvVisitor.cpp`,
and proves properties of that model.

Modelling conventions:
* clang AST nodes are modelled as inductive values; node identity (the
  `clang::Expr*` / `clang::Decl*` pointer used as a map key) is modelled by
  structural equality of the node value, with declarations carrying an
  explicit `addr` field standing for the pointer.
* Z3 terms are modelled as applications of function declarations to argument
  lists.  The solver-internal id of a `z3::func_decl`
  (`Z3_get_func_decl_id`) is modelled by the declaration value itself, since
  Z3 interns declarations (equal ids iff equal kind/name/signature).
* `LOG(FATAL)` / failed `CHECK` / thrown Z3 exceptions are modelled as
  `Except.error`.
* machine integers are `Nat`/`Int` with explicit `% 2^w` where overflow
  matters.
-/

/-- Model of the clang types this translator inspects. -/
inductive CType where
  | boolTy : CType
  | charTy (signed : Bool) : CType
  | intTy (signed : Bool) (width : Nat) : CType
  | floatTy (width : Nat) : CType
  | ptrTy (pointee : CType) : CType
  | recordTy (name : String) : CType
  | arrayTy (elem : CType) (count : Nat) : CType
deriving DecidableEq, Repr

/-- `clang::Type::isBooleanType`. -/
def CType.isBooleanType : CType → Bool
  | .boolTy => true
  | _ => false

/-- `clang::Type::isStructureType`. -/
def CType.isStructureType : CType → Bool
  | .recordTy _ => true
  | _ => false

/-- `clang::Type::isRealFloatingType`. -/
def CType.isRealFloatingType : CType → Bool
  | .floatTy _ => true
  | _ => false

/-- `clang::Type::isSignedIntegerType` (`bool` is an unsigned integer type). -/
def CType.isSignedIntegerType : CType → Bool
  | .charTy s => s
  | .intTy s _ => s
  | _ => false

/-- `clang::Type::isIntegerType` (includes `bool` and character types). -/
def CType.isIntegerType : CType → Bool
  | .boolTy => true
  | .charTy _ => true
  | .intTy _ _ => true
  | _ => false

/-- `clang::Type::isCharType`. -/
def CType.isCharType : CType → Bool
  | .charTy _ => true
  | _ => false

/-- `clang::Type::isPointerType`. -/
def CType.isPointerType : CType → Bool
  | .ptrTy _ => true
  | _ => false

/-- `clang::Type::isArrayType`. -/
def CType.isArrayType : CType → Bool
  | .arrayTy _ _ => true
  | _ => false

/-- `clang::ASTContext::getTypeSize`, in bits (`bool` and `char` occupy one
byte; pointers are 64-bit). -/
def CType.getTypeSize : CType → Nat
  | .boolTy => 8
  | .charTy _ => 8
  | .intTy _ w => w
  | .floatTy w => w
  | .ptrTy _ => 64
  | .recordTy _ => 0
  | .arrayTy e n => n * e.getTypeSize

/-- `clang::ASTContext::getIntTypeForBitwidth`: width 8 yields a character
type, other widths the integer type of that width. -/
def getIntTypeForBitwidth (width : Nat) (signed : Bool) : CType :=
  if width = 8 then .charTy signed else .intTy signed width

/-- `clang::ASTContext::getRealTypeForBitwidth`. -/
def getRealTypeForBitwidth (width : Nat) : CType := .floatTy width

/-- The platform `unsigned int` type (`clang::ASTContext::UnsignedIntTy`). -/
def unsignedIntTy : CType := .intTy false 32

/-- Integer conversion rank used by `getIntegerTypeOrder` (`bool` below
character types below wider integer types). -/
def CType.rank : CType → Nat
  | .boolTy => 1
  | .charTy _ => 2
  | .intTy _ w => w + 2
  | _ => 0

/-- `clang::ASTContext::getIntegerTypeOrder`: positive when the left type has
the higher rank, comparing signedness at equal rank (unsigned wins). -/
def getIntegerTypeOrder (lhs rhs : CType) : Int :=
  if lhs.rank > rhs.rank then 1
  else if lhs.rank < rhs.rank then -1
  else if lhs.isSignedIntegerType = rhs.isSignedIntegerType then 0
  else if lhs.isSignedIntegerType then -1
  else 1

/-- Model of the clang declarations the translator visits: variables, record
fields (carrying their parent record's identity) and functions.  `addr` is
the declaration node's address. -/
inductive CDecl where
  | var (addr : Nat) (name : String) (ty : CType) : CDecl
  | field (addr : Nat) (name : String) (ty : CType)
      (parentAddr : Nat) (parentName : String) : CDecl
  | funcDecl (addr : Nat) (name : String) : CDecl
deriving DecidableEq, Repr

/-- `clang::ValueDecl::getType`. -/
def CDecl.type : CDecl → CType
  | .var _ _ ty => ty
  | .field _ _ ty _ _ => ty
  | .funcDecl _ _ => .intTy true 32

/-- `clang::NamedDecl::getNameAsString`. -/
def CDecl.nameStr : CDecl → String
  | .var _ n _ => n
  | .field _ n _ _ _ => n
  | .funcDecl _ n => n

/-- The declaration node's address (the `clang::Decl*` value). -/
def CDecl.addrOf : CDecl → Nat
  | .var a _ _ => a
  | .field a _ _ _ _ => a
  | .funcDecl a _ => a

/-- The clang unary operator opcodes distinguished by the visitor. -/
inductive UnaryOp where
  | lnot | addrOf | deref
  | otherU (name : String)
deriving DecidableEq, Repr

/-- The clang binary operator opcodes distinguished by the visitor. -/
inductive BinOp where
  | land | lor | beq | bne | rem | add | sub | bAnd | bXor | shr
  | otherB (name : String)
deriving DecidableEq, Repr

/-- The clang cast kinds distinguished by the visitor. -/
inductive CastKind where
  | integralCast | nullToPointer | pointerToIntegral | integralToPointer
  | arrayToPointerDecay
  | otherCast (name : String)
deriving DecidableEq, Repr

/-- Model of the clang expression nodes this translator reads or builds. -/
inductive CExpr where
  | intLit (val : Nat) (ty : CType) : CExpr
  | charLit (val : Nat) (ty : CType) : CExpr
  | floatLit (bits : Nat) (ty : CType) : CExpr
  | declRef (d : CDecl) : CExpr
  | parenE (sub : CExpr) : CExpr
  | unary (op : UnaryOp) (sub : CExpr) (ty : CType) : CExpr
  | binary (op : BinOp) (lhs rhs : CExpr) (ty : CType) : CExpr
  | cstyleCast (kind : CastKind) (ty : CType) (sub : CExpr) : CExpr
  | implicitCast (kind : CastKind) (ty : CType) (sub : CExpr) : CExpr
  | arraySubscript (base idx : CExpr) (ty : CType) : CExpr
  | memberE (base : CExpr) (fld : CDecl) (ty : CType) : CExpr
  | callE (fn : CExpr) : CExpr
deriving DecidableEq, Repr

/-- `clang::Expr::getType`. -/
def CExpr.getType : CExpr → CType
  | .intLit _ ty => ty
  | .charLit _ ty => ty
  | .floatLit _ ty => ty
  | .declRef d => d.type
  | .parenE sub => sub.getType
  | .unary _ _ ty => ty
  | .binary _ _ _ ty => ty
  | .cstyleCast _ ty _ => ty
  | .implicitCast _ ty _ => ty
  | .arraySubscript _ _ ty => ty
  | .memberE _ _ ty => ty
  | .callE fn => fn.getType

/-- The Z3 sorts this translator constructs or inspects. -/
inductive Z3Sort where
  | boolS : Z3Sort
  | bv (width : Nat) : Z3Sort
  | fp (width : Nat) : Z3Sort
  | uninterpS (name : String) : Z3Sort
deriving DecidableEq, Repr

/-- `GetZ3SortSize` (`Z3ConvVisitor.cpp`): booleans count one bit,
bitvectors their width, floating points `ebits + sbits`, uninterpreted
sorts zero. -/
def getZ3SortSize : Z3Sort → Nat
  | .boolS => 1
  | .bv w => w
  | .fp w => w
  | .uninterpS _ => 0

/-- The Z3 declaration kinds (`Z3_decl_kind`) the translator distinguishes,
with numeral payloads carried inline. -/
inductive Z3DeclKind where
  | opTrue | opFalse
  | anum (val : Int)
  | bnum (val : Nat)
  | fnum (val : Nat)
  | opInternal
  | uninterpreted
  | opNot
  | opExtract (hi lo : Nat)
  | opSignExt (n : Nat)
  | opZeroExt (n : Nat)
  | opEq | opDistinct
  | opAnd | opOr
  | opBadd | opBsub | opBand | opBxor | opBashr | opBlshr | opBsrem
deriving DecidableEq, Repr

/-- Model of a `z3::func_decl`: kind, name, domain and range.  Z3 interns
declarations, so this value also stands for the solver-internal decl id. -/
structure Z3FuncDecl where
  kind : Z3DeclKind
  name : String
  domain : List Z3Sort
  range : Z3Sort
deriving DecidableEq, Repr

/-- `z3::func_decl::arity`. -/
def Z3FuncDecl.arity (d : Z3FuncDecl) : Nat := d.domain.length

mutual
/-- Model of a `z3::expr`: an application of a declaration to arguments.
Quantifiers and free variables are never constructed by this translator and
are not representable here. -/
inductive Z3Expr where
  | app (decl : Z3FuncDecl) (args : Z3Args) : Z3Expr

/-- Argument lists of Z3 applications (associative operators such as `and`
may be applied to more than `arity` arguments). -/
inductive Z3Args where
  | nil : Z3Args
  | cons (head : Z3Expr) (tail : Z3Args) : Z3Args
end

mutual
/-- Decidable structural equality of Z3 terms. -/
def Z3Expr.decEq : (a b : Z3Expr) → Decidable (a = b)
  | .app d1 a1, .app d2 a2 =>
    match decEq d1 d2, Z3Args.decEq a1 a2 with
    | .isTrue h1, .isTrue h2 => .isTrue (by rw [h1, h2])
    | .isFalse h1, _ => .isFalse (by intro h; injection h; contradiction)
    | _, .isFalse h2 => .isFalse (by intro h; injection h; contradiction)

/-- Decidable structural equality of Z3 argument lists. -/
def Z3Args.decEq : (a b : Z3Args) → Decidable (a = b)
  | .nil, .nil => .isTrue rfl
  | .nil, .cons _ _ => .isFalse (by intro h; injection h)
  | .cons _ _, .nil => .isFalse (by intro h; injection h)
  | .cons h1 t1, .cons h2 t2 =>
    match Z3Expr.decEq h1 h2, Z3Args.decEq t1 t2 with
    | .isTrue e1, .isTrue e2 => .isTrue (by rw [e1, e2])
    | .isFalse e1, _ => .isFalse (by intro h; injection h; contradiction)
    | _, .isFalse e2 => .isFalse (by intro h; injection h; contradiction)
end

instance : DecidableEq Z3Expr := Z3Expr.decEq

instance : DecidableEq Z3Args := Z3Args.decEq

/-- `z3::expr::decl`. -/
def Z3Expr.decl : Z3Expr → Z3FuncDecl
  | .app d _ => d

/-- The arguments of an application. -/
def Z3Expr.args : Z3Expr → Z3Args
  | .app _ a => a

/-- `z3::expr::get_sort` (the range of the applied declaration). -/
def Z3Expr.sort (e : Z3Expr) : Z3Sort := e.decl.range

/-- `z3::expr::is_bv`. -/
def Z3Expr.isBV (e : Z3Expr) : Bool :=
  match e.sort with
  | .bv _ => true
  | _ => false

/-- `z3::expr::is_bool`. -/
def Z3Expr.isBool (e : Z3Expr) : Bool :=
  match e.sort with
  | .boolS => true
  | _ => false

/-- `Z3Args.length` (`z3::expr::num_args`). -/
def Z3Args.length : Z3Args → Nat
  | .nil => 0
  | .cons _ t => t.length + 1

/-- `z3::expr::num_args`. -/
def Z3Expr.numArgs (e : Z3Expr) : Nat := e.args.length

/-- `z3::expr::is_const`: an application with no arguments. -/
def Z3Expr.isConst (e : Z3Expr) : Bool :=
  match e.args with
  | .nil => true
  | _ => false

/-- Width of a bitvector sort (zero otherwise). -/
def Z3Sort.bvWidth : Z3Sort → Nat
  | .bv w => w
  | _ => 0

/-- One-element argument list. -/
def Z3Args.one (a : Z3Expr) : Z3Args := .cons a .nil

/-- Two-element argument list. -/
def Z3Args.two (a b : Z3Expr) : Z3Args := .cons a (.cons b .nil)

/-- A bitvector numeral declaration of the given value and width. -/
def bnumDecl (val width : Nat) : Z3FuncDecl :=
  { kind := .bnum val, name := "bv-num", domain := [], range := .bv width }

/-- A floating-point numeral declaration. -/
def fnumDecl (val width : Nat) : Z3FuncDecl :=
  { kind := .fnum val, name := "fp-num", domain := [], range := .fp width }

/-- The boolean constant declarations `true` / `false`. -/
def boolConstDecl (b : Bool) : Z3FuncDecl :=
  { kind := if b then .opTrue else .opFalse, name := if b then "true" else "false",
    domain := [], range := .boolS }

/-- `z3::context::bool_val`. -/
def z3BoolVal (b : Bool) : Z3Expr := .app (boolConstDecl b) .nil

/-- `z3::context::bv_val (val, width)`: a bitvector numeral, truncated to the
width. -/
def z3BvVal (val : Nat) (width : Nat) : Z3Expr :=
  .app (bnumDecl (val % 2 ^ width) width) .nil

/-- `z3::context::num_val (v, sort)`.  Z3 rejects numerals of boolean or
uninterpreted sort (the C++ call would throw), modelled as an error. -/
def z3NumVal (v : Int) : Z3Sort → Except String Z3Expr
  | .bv w => .ok (.app (bnumDecl (v % (2 ^ w : Nat)).toNat w) .nil)
  | .fp w => .ok (.app (fnumDecl (v % (2 ^ w : Nat)).toNat w) .nil)
  | .boolS => .error "Z3 exception: numeral of boolean sort"
  | .uninterpS _ => .error "Z3 exception: numeral of uninterpreted sort"

/-- The (interned, binary) declaration of `=` at an operand sort. -/
def eqDecl (s : Z3Sort) : Z3FuncDecl :=
  { kind := .opEq, name := "=", domain := [s, s], range := .boolS }

/-- The declaration of `distinct` at an operand sort (built by the C++
`operator!=`). -/
def distinctDecl (s : Z3Sort) : Z3FuncDecl :=
  { kind := .opDistinct, name := "distinct", domain := [s, s], range := .boolS }

/-- The boolean conjunction declaration (binary; Z3 permits applications
with more arguments since the operator is associative). -/
def andDecl : Z3FuncDecl :=
  { kind := .opAnd, name := "and", domain := [.boolS, .boolS], range := .boolS }

/-- The boolean disjunction declaration. -/
def orDecl : Z3FuncDecl :=
  { kind := .opOr, name := "or", domain := [.boolS, .boolS], range := .boolS }

/-- The boolean negation declaration. -/
def notDecl : Z3FuncDecl :=
  { kind := .opNot, name := "not", domain := [.boolS], range := .boolS }

/-- A binary bitvector operator declaration at a given width. -/
def bvOpDecl (k : Z3DeclKind) (name : String) (w : Nat) : Z3FuncDecl :=
  { kind := k, name := name, domain := [.bv w, .bv w], range := .bv w }

/-- `lhs == rhs` on `z3::expr` (`Z3_mk_eq`). -/
def z3Eq (a b : Z3Expr) : Z3Expr := .app (eqDecl a.sort) (.two a b)

/-- `lhs != rhs` on `z3::expr` (the C++ API builds `Z3_mk_distinct`). -/
def z3Distinct (a b : Z3Expr) : Z3Expr := .app (distinctDecl a.sort) (.two a b)

/-- `lhs && rhs` on `z3::expr`. -/
def z3And (a b : Z3Expr) : Z3Expr := .app andDecl (.two a b)

/-- `lhs || rhs` on `z3::expr`. -/
def z3Or (a b : Z3Expr) : Z3Expr := .app orDecl (.two a b)

/-- `!e` on `z3::expr`. -/
def z3Not (a : Z3Expr) : Z3Expr := .app notDecl (.one a)

/-- `lhs + rhs` on bitvector `z3::expr`s. -/
def z3Badd (a b : Z3Expr) : Z3Expr :=
  .app (bvOpDecl .opBadd "bvadd" a.sort.bvWidth) (.two a b)

/-- `lhs - rhs` on bitvector `z3::expr`s. -/
def z3Bsub (a b : Z3Expr) : Z3Expr :=
  .app (bvOpDecl .opBsub "bvsub" a.sort.bvWidth) (.two a b)

/-- `lhs & rhs` on bitvector `z3::expr`s. -/
def z3Band (a b : Z3Expr) : Z3Expr :=
  .app (bvOpDecl .opBand "bvand" a.sort.bvWidth) (.two a b)

/-- `lhs ^ rhs` on bitvector `z3::expr`s. -/
def z3Bxor (a b : Z3Expr) : Z3Expr :=
  .app (bvOpDecl .opBxor "bvxor" a.sort.bvWidth) (.two a b)

/-- `z3::ashr`. -/
def z3Bashr (a b : Z3Expr) : Z3Expr :=
  .app (bvOpDecl .opBashr "bvashr" a.sort.bvWidth) (.two a b)

/-- `z3::lshr`. -/
def z3Blshr (a b : Z3Expr) : Z3Expr :=
  .app (bvOpDecl .opBlshr "bvlshr" a.sort.bvWidth) (.two a b)

/-- `z3::srem` (signed bitvector remainder). -/
def z3Bsrem (a b : Z3Expr) : Z3Expr :=
  .app (bvOpDecl .opBsrem "bvsrem" a.sort.bvWidth) (.two a b)

/-- `z3::sext (e, n)`: widen a bitvector by `n` sign bits. -/
def z3SignExt (n : Nat) (e : Z3Expr) : Z3Expr :=
  .app { kind := .opSignExt n, name := "sign-ext",
         domain := [.bv e.sort.bvWidth], range := .bv (e.sort.bvWidth + n) }
    (.one e)

/-- `z3::zext (e, n)`: widen a bitvector by `n` zero bits. -/
def z3ZeroExt (n : Nat) (e : Z3Expr) : Z3Expr :=
  .app { kind := .opZeroExt n, name := "zero-ext",
         domain := [.bv e.sort.bvWidth], range := .bv (e.sort.bvWidth + n) }
    (.one e)

/-- `z3::expr::extract (hi, lo)`: bits `hi` down to `lo`, width
`hi + 1 - lo`. -/
def z3Extract (hi lo : Nat) (e : Z3Expr) : Z3Expr :=
  .app { kind := .opExtract hi lo, name := "extract",
         domain := [.bv e.sort.bvWidth], range := .bv (hi + 1 - lo) }
    (.one e)

/-- An uninterpreted function declaration (`z3::context::function`); a
0-ary one is `z3::context::constant (name, sort) .decl ()`. -/
def uninterpFunc (name : String) (domain : List Z3Sort) (range : Z3Sort) :
    Z3FuncDecl :=
  { kind := .uninterpreted, name := name, domain := domain, range := range }

/-- Whether a term is a numeral or boolean constant. -/
def Z3Expr.isNumeralConst (e : Z3Expr) : Bool :=
  match e.decl.kind with
  | .opTrue => true
  | .opFalse => true
  | .anum _ => true
  | .bnum _ => true
  | .fnum _ => true
  | _ => false

/-- The integer value of a numeral or boolean constant. -/
def Z3Expr.numeralVal (e : Z3Expr) : Int :=
  match e.decl.kind with
  | .opTrue => 1
  | .opFalse => 0
  | .anum v => v
  | .bnum v => v
  | .fnum v => v
  | _ => 0

/-- Model of `z3::expr::simplify` on the fragment this translator feeds to
it (`Z3BoolCast` only ever simplifies a freshly built two-argument
`distinct`): Z3's rewriter folds a `distinct` of two numerals to a boolean
constant and otherwise normalises it to `not (= a b)`; other terms are
returned unchanged by this model. -/
def z3Simplify (e : Z3Expr) : Z3Expr :=
  match e with
  | .app d (.cons a (.cons b .nil)) =>
    match d.kind with
    | .opDistinct =>
      if a.isNumeralConst && b.isNumeralConst then
        z3BoolVal (a.numeralVal ≠ b.numeralVal)
      else
        z3Not (.app (eqDecl a.sort) (.two a b))
    | _ => e
  | _ => e

/-- 32-bit mixing step for the structural hash model. -/
def hmix (a b : Nat) : Nat := (a * 31 + b) % 4294967296

/-- Hash of a string (model; folds character codes). -/
def strHash (s : String) : Nat :=
  s.data.foldl (fun a c => hmix a c.toNat) 7

/-- Hash of a sort. -/
def Z3Sort.hashS : Z3Sort → Nat
  | .boolS => 2
  | .bv w => hmix 3 w
  | .fp w => hmix 5 w
  | .uninterpS n => hmix 7 (strHash n)

/-- Hash of a list of sorts. -/
def sortsHash : List Z3Sort → Nat
  | [] => 9
  | s :: t => hmix s.hashS (sortsHash t)

/-- Hash of a declaration kind (numeral payloads reduced mod `2^32`, as in
any 32-bit structural hash). -/
def Z3DeclKind.hashK : Z3DeclKind → Nat
  | .opTrue => 21
  | .opFalse => 22
  | .anum v => hmix 23 (v % (4294967296 : Nat)).toNat
  | .bnum v => hmix 11 v
  | .fnum v => hmix 24 v
  | .opInternal => 25
  | .uninterpreted => 26
  | .opNot => 27
  | .opExtract hi lo => hmix 28 (hmix hi lo)
  | .opSignExt n => hmix 29 n
  | .opZeroExt n => hmix 30 n
  | .opEq => 31
  | .opDistinct => 32
  | .opAnd => 33
  | .opOr => 34
  | .opBadd => 35
  | .opBsub => 36
  | .opBand => 37
  | .opBxor => 38
  | .opBashr => 39
  | .opBlshr => 40
  | .opBsrem => 41

/-- Hash of a declaration. -/
def Z3FuncDecl.hashD (d : Z3FuncDecl) : Nat :=
  hmix (hmix (hmix d.kind.hashK (strHash d.name)) (sortsHash d.domain))
    d.range.hashS

mutual
/-- Model of `z3::expr::hash`: a 32-bit structural hash.  Like the real
hash it is not injective (two structurally distinct terms can share a hash
value). -/
def z3Hash : Z3Expr → Nat
  | .app d args => hmix d.hashD (z3HashArgs args)

/-- Hash of an argument list. -/
def z3HashArgs : Z3Args → Nat
  | .nil => 13
  | .cons a t => hmix (z3Hash a) (z3HashArgs t)
end

mutual
/-- Rendering of Z3 terms (for diagnostics). -/
def Z3Expr.dump : Z3Expr → String
  | .app d args => "(" ++ d.name ++ " " ++ reprStr d.kind ++ Z3Args.dump args ++ ")"

/-- Rendering of Z3 argument lists. -/
def Z3Args.dump : Z3Args → String
  | .nil => ""
  | .cons a t => " " ++ Z3Expr.dump a ++ Z3Args.dump t
end

instance : Repr Z3Expr := ⟨fun e _ => e.dump⟩

instance : Repr Z3Args := ⟨fun a _ => Z3Args.dump a⟩

/-- Association-list lookup (model of `std::unordered_map::find`). -/
def alookup {K V : Type} [DecidableEq K] : List (K × V) → K → Option V
  | [], _ => none
  | (k, v) :: t, k0 => if k0 = k then some v else alookup t k0

/-- The translation context state: the four registry maps of
`Z3ConvVisitor`.  The C++ `z3_expr_map` maps a node to an index into
`z3_expr_vec`; the pair is modelled as one association list, likewise for
declarations. -/
structure St where
  z3ExprMap : List (CExpr × Z3Expr)
  z3DeclMap : List (CDecl × Z3FuncDecl)
  cExprMap : List (Nat × Option CExpr)
  cDeclMap : List (Z3FuncDecl × CDecl)
deriving DecidableEq, Repr

/-- The freshly constructed translation context. -/
def St.empty : St := ⟨[], [], [], []⟩

/-- `Z3ConvVisitor::InsertZ3Expr`: fatal if the node already has a term. -/
def insertZ3Expr (s : St) (e : CExpr) (z : Z3Expr) : Except String St :=
  match alookup s.z3ExprMap e with
  | some _ => .error "CHECK failed: InsertZ3Expr"
  | none => .ok { s with z3ExprMap := (e, z) :: s.z3ExprMap }

/-- `Z3ConvVisitor::GetZ3Expr`: fatal if the node has no term. -/
def getZ3ExprE (s : St) (e : CExpr) : Except String Z3Expr :=
  match alookup s.z3ExprMap e with
  | some z => .ok z
  | none => .error "CHECK failed: GetZ3Expr"

/-- `Z3ConvVisitor::InsertZ3Decl`: fatal if the declaration already has a
function symbol. -/
def insertZ3Decl (s : St) (d : CDecl) (zd : Z3FuncDecl) : Except String St :=
  match alookup s.z3DeclMap d with
  | some _ => .error "CHECK failed: InsertZ3Decl"
  | none => .ok { s with z3DeclMap := (d, zd) :: s.z3DeclMap }

/-- `Z3ConvVisitor::GetZ3Decl`: fatal if the declaration has no function
symbol. -/
def getZ3DeclE (s : St) (d : CDecl) : Except String Z3FuncDecl :=
  match alookup s.z3DeclMap d with
  | some zd => .ok zd
  | none => .error "CHECK failed: GetZ3Decl"

/-- `Z3ConvVisitor::InsertCExpr`: keyed by the term's structural hash;
fatal if that hash already has an expression.  The stored value may be the
C++ null pointer (`Z3_OP_INTERNAL` constants), modelled as `none`. -/
def insertCExpr (s : St) (z : Z3Expr) (c : Option CExpr) : Except String St :=
  match alookup s.cExprMap (z3Hash z) with
  | some _ => .error "CHECK failed: InsertCExpr"
  | none => .ok { s with cExprMap := (z3Hash z, c) :: s.cExprMap }

/-- `Z3ConvVisitor::GetCExpr`: keyed by the term's structural hash; fatal
if absent. -/
def getCExprE (s : St) (z : Z3Expr) : Except String (Option CExpr) :=
  match alookup s.cExprMap (z3Hash z) with
  | some c => .ok c
  | none => .error "CHECK failed: GetCExpr"

/-- `Z3ConvVisitor::InsertCValDecl`: keyed by the function symbol's
solver-internal id (modelled by the interned declaration value); fatal if
already mapped. -/
def insertCValDecl (s : St) (zd : Z3FuncDecl) (d : CDecl) : Except String St :=
  match alookup s.cDeclMap zd with
  | some _ => .error "CHECK failed: InsertCValDecl"
  | none => .ok { s with cDeclMap := (zd, d) :: s.cDeclMap }

/-- `Z3ConvVisitor::GetCValDecl`: fatal if absent. -/
def getCValDeclE (s : St) (zd : Z3FuncDecl) : Except String CDecl :=
  match alookup s.cDeclMap zd with
  | some d => .ok d
  | none => .error "CHECK failed: GetCValDecl"

/-- `Z3ConvVisitor::GetZ3Sort`: booleans to the boolean sort, structures to
an uninterpreted sort named after the record, real floating types to a
floating-point sort of the type's width (only 16/32/64/128 supported,
otherwise fatal), everything else to a bitvector sort of the type's
width. -/
def getZ3Sort (ty : CType) : Except String Z3Sort :=
  if ty.isBooleanType then .ok .boolS
  else if ty.isStructureType then
    match ty with
    | .recordTy name => .ok (.uninterpS name)
    | _ => .error "unreachable"
  else
    let bitwidth := ty.getTypeSize
    if ty.isRealFloatingType then
      if bitwidth = 16 ∨ bitwidth = 32 ∨ bitwidth = 64 ∨ bitwidth = 128 then
        .ok (.fp bitwidth)
      else .error "Unsupported floating-point bitwidth!"
    else .ok (.bv bitwidth)

/-- `CreateZ3DeclName`: the declaration pointer printed in hex, then an
underscore, then the declaration's source name. -/
def createZ3DeclName (addr : Nat) (name : String) : String :=
  "0x" ++ String.mk (Nat.toDigits 16 addr) ++ "_" ++ name

/-- `CreateZ3BitwiseCast`: fatal on a non-bitvector operand; a positive
width difference sign- or zero-extends, a negative one extracts bits
`dst` down to `1`, a zero difference is the identity. -/
def createZ3BitwiseCast (e : Z3Expr) (src dst : Nat) (sign : Bool) :
    Except String Z3Expr :=
  if !e.isBV then .error "z3::expr is not a bitvector!"
  else
    let diff : Int := (dst : Int) - (src : Int)
    if diff > 0 then
      .ok (if sign then z3SignExt diff.toNat e else z3ZeroExt diff.toNat e)
    else if diff < 0 then
      .ok (z3Extract dst 1 e)
    else
      .ok e

/-- `Z3ConvVisitor::Z3BoolCast`: the identity on boolean terms; otherwise
the term is compared `!=` against the zero numeral of its own sort and the
comparison is simplified.  Building the zero numeral throws for an
uninterpreted sort. -/
def z3BoolCast (e : Z3Expr) : Except String Z3Expr :=
  if e.isBool then .ok e
  else do
    let zero ← z3NumVal 0 e.sort
    .ok (z3Simplify (z3Distinct e zero))

/-!
## AST construction helpers

Modelled from the spec: the factory operations of `rellic/AST/Util.h`
(consumed by this translator but not part of the observed source) are,
per the spec's External Interfaces section, plain builders of expression
nodes from primitive data.  Each is modelled as the corresponding node
constructor.
-/

/-- Modelled from the spec: `CreateIntegerLiteral` (AST factory of
`rellic/AST/Util.h`, missing from the observed source). -/
def createIntegerLiteral (val : Nat) (ty : CType) : CExpr := .intLit val ty

/-- Modelled from the spec: `CreateCharacterLiteral`. -/
def createCharacterLiteral (val : Nat) (ty : CType) : CExpr := .charLit val ty

/-- Modelled from the spec: `CreateFloatingLiteral`. -/
def createFloatingLiteral (bits : Nat) (ty : CType) : CExpr := .floatLit bits ty

/-- Modelled from the spec: `CreateDeclRefExpr`. -/
def createDeclRefExpr (d : CDecl) : CExpr := .declRef d

/-- Modelled from the spec: `CreateParenExpr`. -/
def createParenExpr (sub : CExpr) : CExpr := .parenE sub

/-- Modelled from the spec: `CreateNotExpr` builds the native logical-not
node (boolean-typed). -/
def createNotExpr (sub : CExpr) : CExpr := .unary .lnot sub .boolTy

/-- Modelled from the spec: `CreateUnaryOperator`. -/
def createUnaryOperator (op : UnaryOp) (sub : CExpr) (ty : CType) : CExpr :=
  .unary op sub ty

/-- Modelled from the spec: `CreateBinaryOperator`. -/
def createBinaryOperator (op : BinOp) (lhs rhs : CExpr) (ty : CType) : CExpr :=
  .binary op lhs rhs ty

/-- Modelled from the spec: `CreateCStyleCastExpr`. -/
def createCStyleCastExpr (ty : CType) (kind : CastKind) (sub : CExpr) : CExpr :=
  .cstyleCast kind ty sub

/-- Modelled from the spec: `CreateImplicitCastExpr`. -/
def createImplicitCastExpr (ty : CType) (kind : CastKind) (sub : CExpr) : CExpr :=
  .implicitCast kind ty sub

/-- Modelled from the spec: `CreateArraySubscriptExpr`. -/
def createArraySubscriptExpr (base idx : CExpr) (ty : CType) : CExpr :=
  .arraySubscript base idx ty

/-- Modelled from the spec: `CreateMemberExpr`. -/
def createMemberExpr (base : CExpr) (fld : CDecl) (ty : CType) : CExpr :=
  .memberE base fld ty

/-- Model of `clang::QualType::getAsOpaquePtr` reinterpreted as an integer:
a structural encoding of the type as a number (the C++ value is the type
node's address). -/
def CType.tagVal : CType → Nat
  | .boolTy => Nat.pair 0 0
  | .charTy s => Nat.pair 1 (cond s 1 0)
  | .intTy s w => Nat.pair 2 (Nat.pair (cond s 1 0) w)
  | .floatTy w => Nat.pair 3 w
  | .ptrTy p => Nat.pair 4 p.tagVal
  | .recordTy n => Nat.pair 5 (strHash n)
  | .arrayTy e n => Nat.pair 6 (Nat.pair e.tagVal n)

/-- Fuelled partial inverse of `CType.tagVal`. -/
def typeFromTagAux : Nat → Nat → Option CType
  | 0, _ => none
  | fuel + 1, v =>
    let p := Nat.unpair v
    match p.1 with
    | 0 => some .boolTy
    | 1 => some (.charTy (p.2 ≠ 0))
    | 2 => some (.intTy ((Nat.unpair p.2).1 ≠ 0) (Nat.unpair p.2).2)
    | 3 => some (.floatTy p.2)
    | 4 => (typeFromTagAux fuel p.2).map .ptrTy
    | 6 =>
      (typeFromTagAux fuel (Nat.unpair p.2).1).map
        (fun e => .arrayTy e (Nat.unpair p.2).2)
    | _ => none

/-- Model of `clang::QualType::getFromOpaquePtr` applied to the integer
smuggled through `IntToPtr` (partial inverse of `CType.tagVal`; record
names are not recoverable from the model's encoding, and a value that does
not decode falls back to `int`).  No claim in this development depends on
this decoding. -/
def typeFromTag (v : Nat) : CType :=
  (typeFromTagAux (v + 1) v).getD (.intTy true 32)

/-- `Z3ConvVisitor::CreateLiteralExpr`: rebuild a C literal from a 0-ary
constant term.  Boolean terms become `unsigned int` literals 0/1;
bitvector numerals become integer or character literals of the unsigned
type of their width; floating-point numerals become floating literals;
any other sort is fatal. -/
def createLiteralExpr (z : Z3Expr) : Except String CExpr :=
  match z.sort with
  | .boolS =>
    let ty := unsignedIntTy
    .ok (createIntegerLiteral (if z.decl.kind = .opTrue then 1 else 0) ty)
  | .bv w =>
    let ty := getIntTypeForBitwidth w false
    match z.decl.kind with
    | .bnum v =>
      if ty.isCharType then .ok (createCharacterLiteral v ty)
      else .ok (createIntegerLiteral v ty)
    | _ => .error "Z3 exception: not a numeral"
  | .fp w =>
    let ty := getRealTypeForBitwidth w
    if w = 16 ∨ w = 32 ∨ w = 64 ∨ w = 128 then
      match z.decl.kind with
      | .fnum v => .ok (createFloatingLiteral v ty)
      | _ => .error "Z3 exception: not a numeral"
    else .error "Unknown Z3 floating-point sort!"
  | .uninterpS _ => .error "Unknown Z3 sort"

/-- `Z3ConvVisitor::VisitVarDecl` / `VisitFieldDecl` /
`VisitFunctionDecl` (dispatched by `TraverseDecl`).  A variable's symbol
name is the variable's own address and name; a field's symbol name is the
parent record's address and name followed by the field's name; function
declarations are fatal.  Re-visiting an already-mapped declaration is a
no-op. -/
def visitDecl (d : CDecl) (s : St) : Except String St :=
  match d with
  | .var _ _ ty =>
    if (alookup s.z3DeclMap d).isSome then .ok s
    else do
      let zName := createZ3DeclName d.addrOf d.nameStr
      let zSort ← getZ3Sort ty
      insertZ3Decl s d (uninterpFunc zName [] zSort)
  | .field _ name ty pAddr pName =>
    if (alookup s.z3DeclMap d).isSome then .ok s
    else do
      let zName := createZ3DeclName pAddr pName ++ "_" ++ name
      let zSort ← getZ3Sort ty
      insertZ3Decl s d (uninterpFunc zName [] zSort)
  | .funcDecl _ _ => .error "Unimplemented FunctionDecl visitor"

/-- `Z3ConvVisitor::GetOrCreateZ3Decl`: translate the declaration if it has
no symbol yet, then fetch its symbol, and record the reverse
symbol-to-declaration mapping if it is not present. -/
def getOrCreateZ3Decl (d : CDecl) (s : St) :
    Except String (Z3FuncDecl × St) :=
  (if (alookup s.z3DeclMap d).isSome then .ok s else visitDecl d s) >>=
    fun s1 =>
  getZ3DeclE s1 d >>= fun zd =>
  (if (alookup s1.cDeclMap zd).isSome then .ok s1
   else insertCValDecl s1 zd d) >>= fun s2 =>
  .ok (zd, s2)

mutual
/-- `Z3ConvVisitor::GetOrCreateZ3Expr`: drive the forward translator over
the node if it has no term yet, then fetch its term.  The first argument
is recursion fuel (the C++ recursion is bounded by the expression tree). -/
def getOrCreateZ3Expr : Nat → CExpr → St → Except String (Z3Expr × St)
  | 0, _, _ => .error "model: out of fuel"
  | fuel + 1, e, s => do
    let s ← if (alookup s.z3ExprMap e).isSome then .ok s else visitStmt fuel e s
    let z ← getZ3ExprE s e
    .ok (z, s)
termination_by structural fuel _ _ => fuel

/-- The forward translator's per-node-kind dispatch (`TraverseStmt`
reaching the `Visit*` methods of `Z3ConvVisitor`).  Every case begins with
the memoisation guard of the C++ visitor.  Node kinds without a visitor
return with no insertion (so the subsequent `GetZ3Expr` is fatal). -/
def visitStmt : Nat → CExpr → St → Except String St
  | 0, _, _ => .error "model: out of fuel"
  | fuel + 1, e, s =>
    if (alookup s.z3ExprMap e).isSome then .ok s
    else
      match e with
      | .intLit v ty => do
        -- VisitIntegerLiteral
        let zSort ← getZ3Sort ty
        if zSort = .boolS then insertZ3Expr s e (z3BoolVal (v != 0))
        else do
          let zVal ← z3NumVal v zSort
          insertZ3Expr s e zVal
      | .charLit v ty => do
        -- VisitCharacterLiteral
        let zSort ← getZ3Sort ty
        let zVal ← z3NumVal v zSort
        insertZ3Expr s e zVal
      | .declRef d => do
        -- VisitDeclRefExpr
        let (zc, s) ← getOrCreateZ3Decl d s
        insertZ3Expr s e (.app zc .nil)
      | .parenE sub => do
        -- VisitParenExpr
        let (zSub, s) ← getOrCreateZ3Expr fuel sub s
        match zSub.decl.kind with
        | .uninterpreted =>
          let sort := zSub.sort
          insertZ3Expr s e (.app (uninterpFunc "Paren" [sort] sort) (.one zSub))
        | _ => insertZ3Expr s e zSub
      | .unary op sub ty => do
        -- VisitUnaryOperator
        let (operand, s) ← getOrCreateZ3Expr fuel sub s
        match op with
        | .lnot => do
          let c ← z3BoolCast operand
          insertZ3Expr s e (z3Not c)
        | .addrOf => do
          let ptrSort ← getZ3Sort ty
          insertZ3Expr s e
            (.app (uninterpFunc "AddrOf" [operand.sort] ptrSort) (.one operand))
        | .deref => do
          let elmSort ← getZ3Sort ty
          insertZ3Expr s e
            (.app (uninterpFunc "Deref" [operand.sort] elmSort) (.one operand))
        | .otherU _ => .error "Unknown clang::UnaryOperator operation!"
      | .binary op l r _ => do
        -- VisitBinaryOperator
        let (lhs, s) ← getOrCreateZ3Expr fuel l s
        let (rhs, s) ← getOrCreateZ3Expr fuel r s
        match op with
        | .land => do
          let cl ← z3BoolCast lhs
          let cr ← z3BoolCast rhs
          insertZ3Expr s e (z3And cl cr)
        | .lor => do
          let cl ← z3BoolCast lhs
          let cr ← z3BoolCast rhs
          insertZ3Expr s e (z3Or cl cr)
        | .beq => insertZ3Expr s e (z3Eq lhs rhs)
        | .bne => insertZ3Expr s e (z3Distinct lhs rhs)
        | .rem => insertZ3Expr s e (z3Bsrem lhs rhs)
        | .add => insertZ3Expr s e (z3Badd lhs rhs)
        | .sub => insertZ3Expr s e (z3Bsub lhs rhs)
        | .bAnd => insertZ3Expr s e (z3Band lhs rhs)
        | .bXor => insertZ3Expr s e (z3Bxor lhs rhs)
        | .shr =>
          insertZ3Expr s e
            (if l.getType.isSignedIntegerType then z3Bashr lhs rhs
             else z3Blshr lhs rhs)
        | .otherB _ => .error "Unknown clang::BinaryOperator operation!"
      | .cstyleCast kind ty sub => do
        -- VisitCStyleCastExpr
        let tSrc := sub.getType
        let tSrcSize := tSrc.getTypeSize
        let tDstSize := ty.getTypeSize
        let (zSub, s) ← getOrCreateZ3Expr fuel sub s
        let zCast ←
          createZ3BitwiseCast zSub tSrcSize tDstSize tSrc.isSignedIntegerType
        match kind with
        | .pointerToIntegral =>
          insertZ3Expr s e (Z3Expr.app
            (uninterpFunc "PtrToInt" [zSub.sort] zCast.sort) (.one zSub))
        | .integralToPointer =>
          let zPtr := z3BvVal ty.tagVal 64
          insertZ3Expr s e (Z3Expr.app
            (uninterpFunc "IntToPtr" [zPtr.sort, zSub.sort] zCast.sort)
            (.two zPtr zSub))
        | .integralCast => insertZ3Expr s e zCast
        | .nullToPointer => insertZ3Expr s e zCast
        | _ => .error "Unsupported cast type"
      | .implicitCast kind ty sub => do
        -- VisitImplicitCastExpr
        let (zSub, s) ← getOrCreateZ3Expr fuel sub s
        match kind with
        | .arrayToPointerDecay => do
          if !zSub.isBV then .error "Pointer cast operand is not a bit-vector"
          else do
            let sPtr ← getZ3Sort ty
            insertZ3Expr s e
              (.app (uninterpFunc "PtrDecay" [zSub.sort] sPtr) (.one zSub))
        | _ => .error "Unsupported cast type"
      | .arraySubscript base idx ty => do
        -- VisitArraySubscriptExpr
        let (zBase, s) ← getOrCreateZ3Expr fuel base s
        if !zBase.isBV then .error "Invalid Z3 sort for base expression"
        else do
          let (zIdx, s) ← getOrCreateZ3Expr fuel idx s
          if !zIdx.isBV then .error "Invalid Z3 sort for index expression"
          else do
            let elmSort ← getZ3Sort ty
            insertZ3Expr s e
              (.app (uninterpFunc "ArraySub" [zBase.sort, zIdx.sort] elmSort)
                (.two zBase zIdx))
      | .memberE base fld _ => do
        -- VisitMemberExpr
        let (zMemDecl, s) ← getOrCreateZ3Decl fld s
        let zMem := Z3Expr.app zMemDecl .nil
        let (zBase, s) ← getOrCreateZ3Expr fuel base s
        insertZ3Expr s e
          (.app (uninterpFunc "Member" [zBase.sort, zMem.sort] zMem.sort)
            (.two zBase zMem))
      | .callE _ => .error "Unimplemented CallExpr visitor"
      | .floatLit _ _ => .ok s
termination_by structural fuel _ _ => fuel
end

/-- Fetch the decoded expression of an argument, modelling the C++ use of
the possibly-null stored pointer (a null value is dereferenced by the C++
callers; the model reports it as an error). -/
def getCExprChecked (s : St) (z : Z3Expr) : Except String CExpr := do
  let c ← getCExprE s z
  match c with
  | some c => .ok c
  | none => .error "model: null clang::Expr dereferenced"

/-- `Z3ConvVisitor::VisitConstant`: boolean constants and numerals decode
through `CreateLiteralExpr`, internal constants record a null expression,
uninterpreted constants decode to a reference to their registered
declaration; anything else is fatal. -/
def visitConstant (z : Z3Expr) (s : St) : Except String St := do
  if !z.isConst then .error "Z3 expression is not a constant!"
  else
    match z.decl.kind with
    | .opTrue => do
      let c ← createLiteralExpr z
      insertCExpr s z (some c)
    | .opFalse => do
      let c ← createLiteralExpr z
      insertCExpr s z (some c)
    | .anum _ => do
      let c ← createLiteralExpr z
      insertCExpr s z (some c)
    | .bnum _ => do
      let c ← createLiteralExpr z
      insertCExpr s z (some c)
    | .opInternal => insertCExpr s z none
    | .uninterpreted => do
      let d ← getCValDeclE s z.decl
      insertCExpr s z (some (createDeclRefExpr d))
    | _ => .error "Unknown Z3 constant!"

/-- `Z3ConvVisitor::VisitUnaryApp`: native negation, bit extraction and
the named uninterpreted unary functions decode to the corresponding C
node; unknown names or operator kinds are fatal. -/
def visitUnaryApp (z : Z3Expr) (s : St) : Except String St := do
  if !(z.decl.arity = 1) then .error "Z3 expression is not a unary operator!"
  else
    match z.args with
    | .cons a0 .nil => do
      let cSub ← getCExprChecked s a0
      let tSub := cSub.getType
      let cOp ←
        match z.decl.kind with
        | .opNot => .ok (createNotExpr cSub)
        | .opExtract _ _ =>
          if !tSub.isIntegerType then .error "Extract operand is not an integer"
          else
            let sSize := getZ3SortSize z.sort
            let tSign := tSub.isSignedIntegerType
            let tOp := getIntTypeForBitwidth sSize tSign
            .ok (createCStyleCastExpr tOp .integralCast cSub)
        | .uninterpreted =>
          if z.decl.name = "AddrOf" then
            .ok (createUnaryOperator .addrOf cSub (.ptrTy tSub))
          else if z.decl.name = "Deref" then
            match tSub with
            | .ptrTy pointee => .ok (createUnaryOperator .deref cSub pointee)
            | _ => .error "Deref operand type is not a pointer"
          else if z.decl.name = "Paren" then
            .ok (createParenExpr cSub)
          else if z.decl.name = "PtrDecay" then
            match tSub with
            | .arrayTy elem _ =>
              .ok (createImplicitCastExpr (.ptrTy elem) .arrayToPointerDecay cSub)
            | _ => .error "PtrDecay operand type is not an array"
          else if z.decl.name = "PtrToInt" then
            let sSize := getZ3SortSize z.sort
            let tOp := getIntTypeForBitwidth sSize false
            .ok (createCStyleCastExpr tOp .pointerToIntegral cSub)
          else .error "Unknown Z3 uninterpreted function"
        | _ => .error "Unknown Z3 unary operator!"
      insertCExpr s z (some cOp)
    | _ => .error "Z3 expression is not a unary operator!"

/-- The decode loop of the variadic conjunction/disjunction cases of
`VisitBinaryApp`: left-fold the already-decoded arguments into nested
binary nodes typed boolean. -/
def foldBoolOp (op : BinOp) (s : St) : CExpr → Z3Args → Except String CExpr
  | acc, .nil => .ok acc
  | acc, .cons a rest => do
    let c ← getCExprChecked s a
    foldBoolOp op s (createBinaryOperator op acc c .boolTy) rest

/-- `Z3ConvVisitor::VisitBinaryApp`: native equality, variadic
conjunction/disjunction, bitvector addition and signed remainder, and the
named uninterpreted binary functions decode to the corresponding C node;
unknown names or operator kinds are fatal. -/
def visitBinaryApp (z : Z3Expr) (s : St) : Except String St := do
  if !(z.decl.arity = 2) then .error "Z3 expression is not a binary operator!"
  else
    match z.args with
    | .cons a0 (.cons a1 rest) => do
      let lhs ← getCExprChecked s a0
      let rhs ← getCExprChecked s a1
      let intResultType :=
        if getIntegerTypeOrder lhs.getType rhs.getType < 0 then rhs.getType
        else lhs.getType
      let cOp ←
        match z.decl.kind with
        | .opEq => .ok (createBinaryOperator .beq lhs rhs .boolTy)
        | .opAnd => foldBoolOp .land s lhs (.cons a1 rest)
        | .opOr => foldBoolOp .lor s lhs (.cons a1 rest)
        | .opBadd => .ok (createBinaryOperator .add lhs rhs intResultType)
        | .opBsrem => .ok (createBinaryOperator .rem lhs rhs intResultType)
        | .uninterpreted =>
          if z.decl.name = "ArraySub" then
            match lhs.getType with
            | .ptrTy pointee => .ok (createArraySubscriptExpr lhs rhs pointee)
            | _ => .error "Operand is not a clang::PointerType"
          else if z.decl.name = "Member" then do
            let mem ← getCValDeclE s a1.decl
            .ok (createMemberExpr lhs mem mem.type)
          else if z.decl.name = "IntToPtr" then
            match lhs with
            | .intLit v _ =>
              .ok (createCStyleCastExpr (typeFromTag v) .integralToPointer rhs)
            | _ => .error "model: IntToPtr lhs is not an IntegerLiteral"
          else .error "Unknown Z3 uninterpreted function"
        | _ => .error "Unknown Z3 binary operator!"
      insertCExpr s z (some cOp)
    | _ => .error "Z3 expression is not a binary operator!"

mutual
/-- `Z3ConvVisitor::GetOrCreateCExpr`: drive the reverse translator over
the term if its hash has no expression yet, then fetch the expression. -/
def getOrCreateCExpr : Nat → Z3Expr → St → Except String (Option CExpr × St)
  | 0, _, _ => .error "model: out of fuel"
  | fuel + 1, z, s => do
    let s ←
      if (alookup s.cExprMap (z3Hash z)).isSome then .ok s
      else visitZ3Expr fuel z s
    let c ← getCExprE s z
    .ok (c, s)
termination_by structural fuel _ _ => fuel

/-- `Z3ConvVisitor::VisitZ3Expr`: decode all arguments first, then
dispatch on the applied declaration's arity.  (Quantifiers and free
variables - fatal in the C++ - are not representable in the model.) -/
def visitZ3Expr : Nat → Z3Expr → St → Except String St
  | 0, _, _ => .error "model: out of fuel"
  | fuel + 1, z, s => do
    let s ← visitZ3Args fuel z.args s
    match z.decl.arity with
    | 0 => visitConstant z s
    | 1 => visitUnaryApp z s
    | 2 => visitBinaryApp z s
    | _ => .error "Unexpected Z3 operation!"
termination_by structural fuel _ _ => fuel

/-- The argument loop of `VisitZ3Expr`. -/
def visitZ3Args : Nat → Z3Args → St → Except String St
  | 0, _, _ => .error "model: out of fuel"
  | _ + 1, .nil, s => .ok s
  | fuel + 1, .cons a rest, s => do
    let (_, s) ← getOrCreateCExpr fuel a s
    visitZ3Args fuel rest s
termination_by structural fuel _ _ => fuel
end

/-- Value semantics of the bitvector term fragment produced by
`createZ3BitwiseCast` (Z3's documented semantics of numerals, sign/zero
extension and extraction), as a (value, width) pair. -/
def bvEval : Z3Expr → Option (Nat × Nat)
  | .app d args =>
    match d.kind, args with
    | .bnum v, .nil => some (v, d.range.bvWidth)
    | .opSignExt n, .cons a .nil => do
      let (v, w) ← bvEval a
      some (if 2 ^ (w - 1) ≤ v ∧ 0 < w then v + (2 ^ (w + n) - 2 ^ w) else v,
        w + n)
    | .opZeroExt n, .cons a .nil => do
      let (v, w) ← bvEval a
      some (v, w + n)
    | .opExtract hi lo, .cons a .nil => do
      let (v, _) ← bvEval a
      some (v / 2 ^ lo % 2 ^ (hi + 1 - lo), hi + 1 - lo)
    | _, _ => none

/-- The composed pipeline a client runs: encode the expression into a term
in a fresh translation context, then decode that term back in the
resulting context (`expression (term E)`). -/
def roundTrip (fuel : Nat) (e : CExpr) : Except String (Option CExpr) := do
  let (z, s) ← getOrCreateZ3Expr fuel e St.empty
  let (c, _) ← getOrCreateCExpr fuel z s
  .ok c

/-- Sample 32-bit signed variable `a` at address 1. -/
def varA : CDecl := .var 1 "a" (.intTy true 32)

/-- Sample 32-bit signed variable `b` at address 2. -/
def varB : CDecl := .var 2 "b" (.intTy true 32)

/-- Reference to `varA`. -/
def refA : CExpr := .declRef varA

/-- Reference to `varB`. -/
def refB : CExpr := .declRef varB

/-- The boolean-cast rewrite of a reference as it decodes back:
`!(x == 0u)` (the documented truthiness rewrite). -/
def decodedBoolCast (x : CExpr) : CExpr :=
  .unary .lnot (.binary .beq x (.intLit 0 unsignedIntTy) .boolTy) .boolTy

/-- The expressions already decoded for a term's arguments, read off the
registry (used to state the variadic conjunction/disjunction decode). -/
def decodedArgs (s : St) : Z3Args → Option (List CExpr)
  | .nil => some []
  | .cons a rest =>
    match alookup s.cExprMap (z3Hash a) with
    | some (some c) => (decodedArgs s rest).map (fun l => c :: l)
    | _ => none

/-- An n-ary application of the conjunction declaration. -/
def andApp (args : Z3Args) : Z3Expr := .app andDecl args

/-- An n-ary application of the disjunction declaration. -/
def orApp (args : Z3Args) : Z3Expr := .app orDecl args

/-- Number of entries of an association list holding a given key. -/
def countKey {K V : Type} [DecidableEq K] (m : List (K × V)) (k : K) : Nat :=
  (m.filter (fun p => decide (p.1 = k))).length

/-- The keys of an association list are pairwise distinct (always true of
the C++ `std::unordered_map`s this models). -/
def nodupKeys {K V : Type} (m : List (K × V)) : Prop :=
  (m.map Prod.fst).Nodup

/-- All four registry maps have pairwise distinct keys. -/
def StWF (s : St) : Prop :=
  nodupKeys s.z3ExprMap ∧ nodupKeys s.z3DeclMap ∧ nodupKeys s.cExprMap ∧
    nodupKeys s.cDeclMap

instance {K V : Type} [DecidableEq K] (m : List (K × V)) :
    Decidable (nodupKeys m) := by
  unfold nodupKeys; infer_instance

instance (s : St) : Decidable (StWF s) := by
  unfold StWF; infer_instance

deriving instance DecidableEq for Except

/-- Remaining concrete fixtures used by witnesses. -/
def declA : Z3FuncDecl := uninterpFunc "0x1_a" [] (.bv 32)

/-- The 0-ary symbol synthesised for `varB`. -/
def declB : Z3FuncDecl := uninterpFunc "0x2_b" [] (.bv 32)

/-- The constant term for `varA`. -/
def zA : Z3Expr := .app declA .nil

/-- The constant term for `varB`. -/
def zB : Z3Expr := .app declB .nil

/-- The translation context after encoding `refA` from scratch. -/
def stA : St :=
  { z3ExprMap := [(refA, zA)], z3DeclMap := [(varA, declA)],
    cExprMap := [], cDeclMap := [(declA, varA)] }

/-- The 32-bit zero numeral. -/
def zeroBV32 : Z3Expr := .app (bnumDecl 0 32) .nil

/-- The simplified boolean cast of a 32-bit term `x`: `not (= x 0)`. -/
def bcOf (x : Z3Expr) : Z3Expr := z3Not (z3Eq x zeroBV32)

/-- The expression `a && b`. -/
def eLand : CExpr := .binary .land refA refB .boolTy

/-- The expression `a || b`. -/
def eLor : CExpr := .binary .lor refA refB .boolTy

/-- The term encoding `a && b`. -/
def zLand : Z3Expr := z3And (bcOf zA) (bcOf zB)

/-- The term encoding `a || b`. -/
def zLor : Z3Expr := z3Or (bcOf zA) (bcOf zB)

/-- The translation context after encoding `a && b` from scratch. -/
def sLand : St :=
  { z3ExprMap := [(eLand, zLand), (refB, zB), (refA, zA)],
    z3DeclMap := [(varB, declB), (varA, declA)],
    cExprMap := [],
    cDeclMap := [(declB, varB), (declA, varA)] }

/-- The translation context after encoding `a || b` from scratch. -/
def sLor : St :=
  { z3ExprMap := [(eLor, zLor), (refB, zB), (refA, zA)],
    z3DeclMap := [(varB, declB), (varA, declA)],
    cExprMap := [],
    cDeclMap := [(declB, varB), (declA, varA)] }

/-- The decoding phase of the pipeline, projected to the produced
expression. -/
def decodeOnly (fuel : Nat) (z : Z3Expr) (s : St) : Except String (Option CExpr) :=
  (getOrCreateCExpr fuel z s).map Prod.fst

/-- Registry state used to exercise the variadic decode fold. -/
def sFold : St :=
  { z3ExprMap := [], z3DeclMap := [],
    cExprMap := [(z3Hash (z3BvVal 1 8), some refA),
                 (z3Hash (z3BvVal 2 8), some refB),
                 (z3Hash (z3BvVal 3 8), some (.intLit 3 unsignedIntTy))],
    cDeclMap := [] }

/-!
## Helper lemmas
-/

theorem alookup_cons {K V : Type} [DecidableEq K] (k0 k : K) (v : V)
    (m : List (K × V)) :
    alookup ((k, v) :: m) k0 = if k0 = k then some v else alookup m k0 := rfl

theorem alookup_eq_none_iff {K V : Type} [DecidableEq K] (m : List (K × V))
    (k : K) : alookup m k = none ↔ k ∉ m.map Prod.fst := by
  induction m with
  | nil => simp [alookup]
  | cons p t ih =>
    obtain ⟨k1, v1⟩ := p
    by_cases hk : k = k1
    · subst hk; simp [alookup]
    · simp [alookup, hk, ih]

theorem countKey_eq_zero_of_not_mem {K V : Type} [DecidableEq K]
    {m : List (K × V)} {k : K} (h : k ∉ m.map Prod.fst) : countKey m k = 0 := by
  induction m with
  | nil => rfl
  | cons p t ih =>
    obtain ⟨k1, v1⟩ := p
    simp only [List.map_cons, List.mem_cons] at h
    push_neg at h
    simp only [countKey, List.filter_cons]
    rw [if_neg (by simp [Ne.symm h.1])]
    exact ih h.2

theorem countKey_eq_one_of_nodup {K V : Type} [DecidableEq K]
    {m : List (K × V)} {k : K} {v : V} (hn : nodupKeys m)
    (hl : alookup m k = some v) : countKey m k = 1 := by
  induction m with
  | nil => simp [alookup] at hl
  | cons p t ih =>
    obtain ⟨k1, v1⟩ := p
    simp only [nodupKeys, List.map_cons, List.nodup_cons] at hn
    by_cases hk : k = k1
    · subst hk
      simp only [countKey, List.filter_cons]
      rw [if_pos (by simp)]
      simp only [List.length_cons]
      have := countKey_eq_zero_of_not_mem (m := t) (k := k) hn.1
      simpa [countKey] using this
    · rw [alookup_cons, if_neg hk] at hl
      simp only [countKey, List.filter_cons]
      rw [if_neg (by simp; exact fun h => absurd h.symm hk)]
      exact ih hn.2 hl

theorem except_bind_ok {α β : Type} {x : Except String α}
    {f : α → Except String β} {b : β} (h : x >>= f = .ok b) :
    ∃ a, x = .ok a ∧ f a = .ok b := by
  cases x with
  | error e => simp [Bind.bind, Except.bind] at h
  | ok a => exact ⟨a, rfl, h⟩

theorem simplify_distinct_isBool (a b : Z3Expr) :
    (z3Simplify (z3Distinct a b)).isBool = true := by
  simp only [z3Distinct, z3Simplify, Z3Args.two, distinctDecl]
  split
  · rfl
  · rfl

theorem z3BoolCast_isBool {t r : Z3Expr} (h : z3BoolCast t = .ok r) :
    r.isBool = true := by
  unfold z3BoolCast at h
  by_cases hb : t.isBool = true
  · rw [if_pos hb] at h
    cases h
    exact hb
  · rw [if_neg hb] at h
    obtain ⟨zero, _, h2⟩ := except_bind_ok h
    cases h2
    exact simplify_distinct_isBool t zero

/-!
## Claim theorems
-/

/-- C2: `code_bug` evidence.  For an integer conversion from source width
32 to destination width 8 (unsigned), `createZ3BitwiseCast` produces
`extract (8, 1)` of the operand — a term of width exactly 8, but holding
bits 8..1 instead of the low 8 bits: on the operand numeral 2 it evaluates
to value 1, whereas the low 8 bits of 2 are 2. -/
theorem c2_truncation_drops_bit0 :
    createZ3BitwiseCast (z3BvVal 2 32) 32 8 false =
      .ok (z3Extract 8 1 (z3BvVal 2 32)) ∧
    bvEval (z3Extract 8 1 (z3BvVal 2 32)) = some (1, 8) ∧
    (2 : Nat) % 2 ^ 8 = 2 ∧ (1 : Nat) ≠ 2 := by
  refine ⟨by decide, by decide, by decide, by decide⟩

/-- C4: the boolean-cast helper is the identity on boolean-sorted terms,
and idempotent: whenever it succeeds, applying it to its own result
returns that result unchanged. -/
theorem c4_bool_cast_identity_idempotent :
    (∀ t : Z3Expr, t.isBool = true → z3BoolCast t = .ok t) ∧
    (∀ t r : Z3Expr, z3BoolCast t = .ok r → z3BoolCast r = .ok r) := by
  constructor
  · intro t h
    unfold z3BoolCast
    rw [if_pos h]
  · intro t r h
    have hr := z3BoolCast_isBool h
    unfold z3BoolCast
    rw [if_pos hr]

/-- Witness for C4 at concrete inputs: the boolean constant is returned
unchanged, and the cast of the 32-bit numeral 5 (which simplifies to the
boolean constant `true`) is a fixed point. -/
theorem c4_witness :
    z3BoolCast (z3BoolVal false) = .ok (z3BoolVal false) ∧
    z3BoolCast (z3BoolVal true) = .ok (z3BoolVal true) :=
  ⟨c4_bool_cast_identity_idempotent.1 (z3BoolVal false) (by decide),
   c4_bool_cast_identity_idempotent.2 (z3BvVal 5 32) (z3BoolVal true) (by decide)⟩

/-- C3: in all four registry directions, inserting an already-mapped key is
fatal, looking up a never-inserted key is fatal, and a successful insert
only prepends the new entry (it never overwrites: every other key maps as
before, and inserts are only accepted for absent keys). -/
theorem c3_registry_single_insertion :
    (∀ (s : St) (e : CExpr) (z : Z3Expr),
      (alookup s.z3ExprMap e).isSome →
        insertZ3Expr s e z = .error "CHECK failed: InsertZ3Expr") ∧
    (∀ (s : St) (e : CExpr),
      alookup s.z3ExprMap e = none →
        getZ3ExprE s e = .error "CHECK failed: GetZ3Expr") ∧
    (∀ (s s2 : St) (e : CExpr) (z : Z3Expr),
      insertZ3Expr s e z = .ok s2 →
        alookup s.z3ExprMap e = none ∧ alookup s2.z3ExprMap e = some z ∧
        ∀ e2 : CExpr, e2 ≠ e →
          alookup s2.z3ExprMap e2 = alookup s.z3ExprMap e2) ∧
    (∀ (s : St) (d : CDecl) (zd : Z3FuncDecl),
      (alookup s.z3DeclMap d).isSome →
        insertZ3Decl s d zd = .error "CHECK failed: InsertZ3Decl") ∧
    (∀ (s : St) (d : CDecl),
      alookup s.z3DeclMap d = none →
        getZ3DeclE s d = .error "CHECK failed: GetZ3Decl") ∧
    (∀ (s s2 : St) (d : CDecl) (zd : Z3FuncDecl),
      insertZ3Decl s d zd = .ok s2 →
        alookup s.z3DeclMap d = none ∧ alookup s2.z3DeclMap d = some zd ∧
        ∀ d2 : CDecl, d2 ≠ d →
          alookup s2.z3DeclMap d2 = alookup s.z3DeclMap d2) ∧
    (∀ (s : St) (z : Z3Expr) (c : Option CExpr),
      (alookup s.cExprMap (z3Hash z)).isSome →
        insertCExpr s z c = .error "CHECK failed: InsertCExpr") ∧
    (∀ (s : St) (z : Z3Expr),
      alookup s.cExprMap (z3Hash z) = none →
        getCExprE s z = .error "CHECK failed: GetCExpr") ∧
    (∀ (s s2 : St) (z : Z3Expr) (c : Option CExpr),
      insertCExpr s z c = .ok s2 →
        alookup s.cExprMap (z3Hash z) = none ∧
        alookup s2.cExprMap (z3Hash z) = some c ∧
        ∀ h2 : Nat, h2 ≠ z3Hash z →
          alookup s2.cExprMap h2 = alookup s.cExprMap h2) ∧
    (∀ (s : St) (zd : Z3FuncDecl) (d : CDecl),
      (alookup s.cDeclMap zd).isSome →
        insertCValDecl s zd d = .error "CHECK failed: InsertCValDecl") ∧
    (∀ (s : St) (zd : Z3FuncDecl),
      alookup s.cDeclMap zd = none →
        getCValDeclE s zd = .error "CHECK failed: GetCValDecl") ∧
    (∀ (s s2 : St) (zd : Z3FuncDecl) (d : CDecl),
      insertCValDecl s zd d = .ok s2 →
        alookup s.cDeclMap zd = none ∧ alookup s2.cDeclMap zd = some d ∧
        ∀ z2 : Z3FuncDecl, z2 ≠ zd →
          alookup s2.cDeclMap z2 = alookup s.cDeclMap z2) := by
  refine ⟨?_, ?_, ?_, ?_, ?_, ?_, ?_, ?_, ?_, ?_, ?_, ?_⟩
  · intro s e z h
    unfold insertZ3Expr
    cases hx : alookup s.z3ExprMap e
    · rw [hx] at h; cases h
    · rfl
  · intro s e h
    unfold getZ3ExprE
    rw [h]
  · intro s s2 e z h
    unfold insertZ3Expr at h
    cases hx : alookup s.z3ExprMap e <;> rw [hx] at h
    · cases h
      exact ⟨rfl, by rw [alookup_cons, if_pos rfl],
        fun e2 he2 => by rw [alookup_cons, if_neg he2]⟩
    · cases h
  · intro s d zd h
    unfold insertZ3Decl
    cases hx : alookup s.z3DeclMap d
    · rw [hx] at h; cases h
    · rfl
  · intro s d h
    unfold getZ3DeclE
    rw [h]
  · intro s s2 d zd h
    unfold insertZ3Decl at h
    cases hx : alookup s.z3DeclMap d <;> rw [hx] at h
    · cases h
      exact ⟨rfl, by rw [alookup_cons, if_pos rfl],
        fun d2 hd2 => by rw [alookup_cons, if_neg hd2]⟩
    · cases h
  · intro s z c h
    unfold insertCExpr
    cases hx : alookup s.cExprMap (z3Hash z)
    · rw [hx] at h; cases h
    · rfl
  · intro s z h
    unfold getCExprE
    rw [h]
  · intro s s2 z c h
    unfold insertCExpr at h
    cases hx : alookup s.cExprMap (z3Hash z) <;> rw [hx] at h
    · cases h
      exact ⟨rfl, by rw [alookup_cons, if_pos rfl],
        fun h2 hh2 => by rw [alookup_cons, if_neg hh2]⟩
    · cases h
  · intro s zd d h
    unfold insertCValDecl
    cases hx : alookup s.cDeclMap zd
    · rw [hx] at h; cases h
    · rfl
  · intro s zd h
    unfold getCValDeclE
    rw [h]
  · intro s s2 zd d h
    unfold insertCValDecl at h
    cases hx : alookup s.cDeclMap zd <;> rw [hx] at h
    · cases h
      exact ⟨rfl, by rw [alookup_cons, if_pos rfl],
        fun z2 hz2 => by rw [alookup_cons, if_neg hz2]⟩
    · cases h

/-- Witness for C3 at concrete inputs: re-inserting `refA` into the
populated context `stA` is fatal in the forward direction, looking up `refB`
there is fatal, and a fresh insert into the empty context succeeds without
touching other keys; likewise exercised for the other three directions. -/
theorem c3_witness :
    insertZ3Expr stA refA zA = .error "CHECK failed: InsertZ3Expr" ∧
    getZ3ExprE stA refB = .error "CHECK failed: GetZ3Expr" ∧
    (alookup St.empty.z3ExprMap refA = none ∧
      alookup { St.empty with z3ExprMap := [(refA, zA)] }.z3ExprMap refA =
        some zA ∧
      ∀ e2 : CExpr, e2 ≠ refA →
        alookup { St.empty with z3ExprMap := [(refA, zA)] }.z3ExprMap e2 =
          alookup St.empty.z3ExprMap e2) ∧
    insertZ3Decl stA varA declA = .error "CHECK failed: InsertZ3Decl" ∧
    getZ3DeclE stA varB = .error "CHECK failed: GetZ3Decl" ∧
    insertCExpr stA zA (some refA) = .ok
      { stA with cExprMap := [(z3Hash zA, some refA)] } ∧
    getCExprE stA zA = .error "CHECK failed: GetCExpr" ∧
    insertCValDecl stA declA varA = .error "CHECK failed: InsertCValDecl" ∧
    getCValDeclE stA declB = .error "CHECK failed: GetCValDecl" :=
  ⟨c3_registry_single_insertion.1 stA refA zA (by decide),
   c3_registry_single_insertion.2.1 stA refB (by decide),
   c3_registry_single_insertion.2.2.1 St.empty
     { St.empty with z3ExprMap := [(refA, zA)] } refA zA (by decide),
   c3_registry_single_insertion.2.2.2.1 stA varA declA (by decide),
   c3_registry_single_insertion.2.2.2.2.1 stA varB (by decide),
   by decide,
   c3_registry_single_insertion.2.2.2.2.2.2.2.1 stA zA (by decide),
   c3_registry_single_insertion.2.2.2.2.2.2.2.2.2.1 stA declA varA (by decide),
   c3_registry_single_insertion.2.2.2.2.2.2.2.2.2.2.1 stA declB (by decide)⟩

/-- C9: the term-to-expression registry direction is keyed solely by the
term's structural hash: hash-equal terms look up the same expression, and
inserting expressions for two hash-equal terms is a fatal double insert
even when the terms are structurally distinct. -/
theorem c9_cexpr_keyed_by_hash :
    (∀ (s : St) (t1 t2 : Z3Expr), z3Hash t1 = z3Hash t2 →
      getCExprE s t1 = getCExprE s t2) ∧
    (∀ (s s2 : St) (t1 t2 : Z3Expr) (c1 c2 : Option CExpr),
      z3Hash t1 = z3Hash t2 → insertCExpr s t1 c1 = .ok s2 →
      insertCExpr s2 t2 c2 = .error "CHECK failed: InsertCExpr") := by
  constructor
  · intro s t1 t2 h
    unfold getCExprE
    rw [h]
  · intro s s2 t1 t2 c1 c2 h hi
    unfold insertCExpr at hi
    cases hx : alookup s.cExprMap (z3Hash t1) <;> rw [hx] at hi
    · cases hi
      unfold insertCExpr
      rw [← h, alookup_cons, if_pos rfl]
    · cases hi

/-- Witness for C9: the 64-bit numerals 0 and `2^32` are structurally
distinct but share the model hash; they look up identically, and inserting
for one then the other is a fatal double insert. -/
theorem c9_witness :
    z3BvVal 0 64 ≠ z3BvVal 4294967296 64 ∧
    getCExprE stA (z3BvVal 0 64) = getCExprE stA (z3BvVal 4294967296 64) ∧
    insertCExpr { St.empty with
        cExprMap := [(z3Hash (z3BvVal 0 64), some refA)] }
      (z3BvVal 4294967296 64) (some refB) =
      .error "CHECK failed: InsertCExpr" :=
  ⟨by decide,
   c9_cexpr_keyed_by_hash.1 stA (z3BvVal 0 64) (z3BvVal 4294967296 64)
     (by decide),
   c9_cexpr_keyed_by_hash.2 St.empty
     { St.empty with cExprMap := [(z3Hash (z3BvVal 0 64), some refA)] }
     (z3BvVal 0 64) (z3BvVal 4294967296 64) (some refA) (some refB)
     (by decide) (by decide)⟩

/-- C8 counterexample: translating the field declaration `x` (own address
12) of record `S` (address 5) synthesises the symbol name "0x5_S_x" — the
parent record's identity and name followed by the field's name — which is
not the field's own identity concatenated with its source name ("0xc_x"),
refuting the claim for field declarations. -/
theorem c8_counterexample :
    visitDecl (.field 12 "x" (.intTy true 32) 5 "S") St.empty =
      .ok { St.empty with
        z3DeclMap :=
          [(.field 12 "x" (.intTy true 32) 5 "S",
            uninterpFunc "0x5_S_x" [] (.bv 32))] } ∧
    createZ3DeclName (CDecl.field 12 "x" (.intTy true 32) 5 "S").addrOf
        (CDecl.field 12 "x" (.intTy true 32) 5 "S").nameStr = "0xc_x" ∧
    "0x5_S_x" ≠ "0xc_x" := by
  refine ⟨by decide, by decide, by decide⟩

/-- C8 amended: a variable declaration's 0-ary symbol is named by the
variable's own identity concatenated with its source name; a field
declaration's symbol is named by the parent record's identity concatenated
with the parent record's name and then the field's own name; in both cases
the symbol is a fresh 0-ary constant of the declaration type's sort. -/
theorem c8_decl_symbol_names :
    (∀ (a : Nat) (nm : String) (ty : CType) (s s2 : St),
      alookup s.z3DeclMap (.var a nm ty) = none →
      visitDecl (.var a nm ty) s = .ok s2 →
      ∃ zsort, getZ3Sort ty = .ok zsort ∧
        alookup s2.z3DeclMap (.var a nm ty) =
          some (uninterpFunc (createZ3DeclName a nm) [] zsort)) ∧
    (∀ (a : Nat) (nm : String) (ty : CType) (pa : Nat) (pn : String)
        (s s2 : St),
      alookup s.z3DeclMap (.field a nm ty pa pn) = none →
      visitDecl (.field a nm ty pa pn) s = .ok s2 →
      ∃ zsort, getZ3Sort ty = .ok zsort ∧
        alookup s2.z3DeclMap (.field a nm ty pa pn) =
          some (uninterpFunc (createZ3DeclName pa pn ++ "_" ++ nm) [] zsort)) := by
  constructor
  · intro a nm ty s s2 habs h
    unfold visitDecl at h
    rw [habs] at h
    simp only [Option.isSome_none, Bool.false_eq_true, if_false] at h
    obtain ⟨zsort, hz, h2⟩ := except_bind_ok h
    refine ⟨zsort, hz, ?_⟩
    unfold insertZ3Decl at h2
    rw [habs] at h2
    cases h2
    simp only [CDecl.addrOf, CDecl.nameStr]
    rw [alookup_cons, if_pos rfl]
  · intro a nm ty pa pn s s2 habs h
    unfold visitDecl at h
    rw [habs] at h
    simp only [Option.isSome_none, Bool.false_eq_true, if_false] at h
    obtain ⟨zsort, hz, h2⟩ := except_bind_ok h
    refine ⟨zsort, hz, ?_⟩
    unfold insertZ3Decl at h2
    rw [habs] at h2
    cases h2
    rw [alookup_cons, if_pos rfl]

/-- Witness for C8 at concrete declarations: the variable `a` receives the
symbol "0x1_a" and the field `x` of record `S` the symbol "0x5_S_x". -/
theorem c8_witness :
    (∃ zsort, getZ3Sort (.intTy true 32) = .ok zsort ∧
      alookup { St.empty with z3DeclMap := [(varA, declA)] }.z3DeclMap
          (.var 1 "a" (.intTy true 32)) =
        some (uninterpFunc (createZ3DeclName 1 "a") [] zsort)) ∧
    (∃ zsort, getZ3Sort (.intTy true 32) = .ok zsort ∧
      alookup { St.empty with
          z3DeclMap :=
            [(.field 12 "x" (.intTy true 32) 5 "S",
              uninterpFunc "0x5_S_x" [] (.bv 32))] }.z3DeclMap
          (.field 12 "x" (.intTy true 32) 5 "S") =
        some (uninterpFunc (createZ3DeclName 5 "S" ++ "_" ++ "x") [] zsort)) :=
  ⟨c8_decl_symbol_names.1 1 "a" (.intTy true 32) St.empty
     { St.empty with z3DeclMap := [(varA, declA)] } (by decide) (by decide),
   c8_decl_symbol_names.2 12 "x" (.intTy true 32) 5 "S" St.empty
     { St.empty with
        z3DeclMap :=
          [(.field 12 "x" (.intTy true 32) 5 "S",
            uninterpFunc "0x5_S_x" [] (.bv 32))] } (by decide) (by decide)⟩

/-- C6: encoding a parenthesisation wraps the sub-expression's term in the
unary uninterpreted `Paren` function exactly when that term is an
application of an uninterpreted function; any other term kind passes
through unchanged (the visit reduces to inserting either the wrapped or
the original term). -/
theorem c6_paren_wrap_iff_uninterp :
    ∀ (fuel : Nat) (sub : CExpr) (s s2 : St) (z : Z3Expr),
      alookup s.z3ExprMap (.parenE sub) = none →
      getOrCreateZ3Expr fuel sub s = .ok (z, s2) →
      visitStmt (fuel + 1) (.parenE sub) s =
        insertZ3Expr s2 (.parenE sub)
          (if z.decl.kind = .uninterpreted then
            .app (uninterpFunc "Paren" [z.sort] z.sort) (.one z)
          else z) := by
  intro fuel sub s s2 z habs hgo
  rw [visitStmt]
  simp only [habs, Option.isSome_none, Bool.false_eq_true, if_false, hgo]
  cases hz : z.decl.kind <;>
    simp [Bind.bind, Except.bind, hz]

/-- Witness for C6: encoding `(a)` after `a` was encoded in the fresh
context inserts the `Paren`-wrapped constant (the constant is an
uninterpreted application). -/
theorem c6_witness :
    visitStmt 5 (.parenE refA) St.empty =
      insertZ3Expr stA (.parenE refA)
        (if zA.decl.kind = .uninterpreted then
          .app (uninterpFunc "Paren" [zA.sort] zA.sort) (.one zA)
        else zA) :=
  c6_paren_wrap_iff_uninterp 4 refA St.empty stA zA (by decide) (by decide)

/-- C10: forward translation of a C-style cast requires the operand's term
to be bitvector-sorted before any cast kind is dispatched: for every cast
kind — including the pass-through kinds — a non-bitvector operand is
fatal with the bitwise-cast helper's check message. -/
theorem c10_cstyle_cast_requires_bv :
    ∀ (fuel : Nat) (kind : CastKind) (ty : CType) (sub : CExpr) (s s2 : St)
      (z : Z3Expr),
      alookup s.z3ExprMap (.cstyleCast kind ty sub) = none →
      getOrCreateZ3Expr fuel sub s = .ok (z, s2) →
      z.isBV = false →
      visitStmt (fuel + 1) (.cstyleCast kind ty sub) s =
        .error "z3::expr is not a bitvector!" := by
  intro fuel kind ty sub s s2 z habs hgo hbv
  rw [visitStmt]
  simp only [habs, Option.isSome_none, Bool.false_eq_true, if_false, hgo]
  simp [Bind.bind, Except.bind, createZ3BitwiseCast, hbv]

/-- Witness for C10: casting the boolean literal `1` (whose term is the
boolean constant, not a bitvector) with the pass-through kind
`IntegralCast` is fatal before the kind is inspected. -/
theorem c10_witness :
    visitStmt 3 (.cstyleCast .integralCast (.intTy false 32)
        (.intLit 1 .boolTy)) St.empty =
      .error "z3::expr is not a bitvector!" :=
  c10_cstyle_cast_requires_bv 2 .integralCast (.intTy false 32)
    (.intLit 1 .boolTy) St.empty
    { St.empty with z3ExprMap := [(.intLit 1 .boolTy, z3BoolVal true)] }
    (z3BoolVal true) (by decide) (by decide) (by decide)

theorem getCExprChecked_of_lookup {s : St} {a : Z3Expr} {c : CExpr}
    (h : alookup s.cExprMap (z3Hash a) = some (some c)) :
    getCExprChecked s a = .ok c := by
  unfold getCExprChecked getCExprE
  rw [h]
  rfl

theorem foldBoolOp_eq (op : BinOp) (s : St) :
    ∀ (args : Z3Args) (cs : List CExpr) (acc : CExpr),
      decodedArgs s args = some cs →
      foldBoolOp op s acc args =
        .ok (cs.foldl (fun x c => createBinaryOperator op x c .boolTy) acc)
  | .nil => by
    intro cs acc h
    simp only [decodedArgs, Option.some.injEq] at h
    subst h
    rfl
  | .cons a rest => by
    intro cs acc h
    simp only [decodedArgs] at h
    cases hl : alookup s.cExprMap (z3Hash a) with
    | none => rw [hl] at h; cases h
    | some v =>
      rw [hl] at h
      cases v with
      | none => cases h
      | some c =>
        simp only [Option.map_eq_some'] at h
        obtain ⟨cs2, hcs2, heq⟩ := h
        subst heq
        unfold foldBoolOp
        rw [getCExprChecked_of_lookup hl]
        simp only [Bind.bind, Except.bind, List.foldl_cons]
        exact foldBoolOp_eq op s rest cs2
          (createBinaryOperator op acc c .boolTy) hcs2

/-- C7: decoding an n-ary conjunction (resp. disjunction) application with
arguments `a1 .. an` whose decoded expressions are `c1 .. cn` produces the
left fold of binary logical-and (resp. logical-or) nodes over those
expressions in order, every node typed boolean, and records it for the
term. -/
theorem c7_variadic_decode_left_fold :
    ∀ (s : St) (a0 a1 : Z3Expr) (rest : Z3Args) (c0 : CExpr) (cs : List CExpr),
      decodedArgs s (.cons a0 (.cons a1 rest)) = some (c0 :: cs) →
      visitBinaryApp (andApp (.cons a0 (.cons a1 rest))) s =
        insertCExpr s (andApp (.cons a0 (.cons a1 rest)))
          (some (cs.foldl
            (fun x c => createBinaryOperator .land x c .boolTy) c0)) ∧
      visitBinaryApp (orApp (.cons a0 (.cons a1 rest))) s =
        insertCExpr s (orApp (.cons a0 (.cons a1 rest)))
          (some (cs.foldl
            (fun x c => createBinaryOperator .lor x c .boolTy) c0)) := by
  intro s a0 a1 rest c0 cs h
  have h0 : alookup s.cExprMap (z3Hash a0) = some (some c0) ∧
      decodedArgs s (.cons a1 rest) = some cs := by
    simp only [decodedArgs] at h
    cases hl : alookup s.cExprMap (z3Hash a0) with
    | none => rw [hl] at h; cases h
    | some v =>
      rw [hl] at h
      cases v with
      | none => cases h
      | some c =>
        simp only [Option.map_eq_some'] at h
        obtain ⟨cs2, hcs2, heq⟩ := h
        cases heq
        exact ⟨rfl, hcs2⟩
  have h1 : ∃ c1, alookup s.cExprMap (z3Hash a1) = some (some c1) := by
    have h2 := h0.2
    simp only [decodedArgs] at h2
    cases hl : alookup s.cExprMap (z3Hash a1) with
    | none => rw [hl] at h2; cases h2
    | some v =>
      rw [hl] at h2
      cases v with
      | none => cases h2
      | some c1 => exact ⟨c1, rfl⟩
  obtain ⟨c1, hc1⟩ := h1
  constructor
  · unfold visitBinaryApp
    simp [andApp, andDecl, Z3Expr.decl, Z3FuncDecl.arity, Z3Expr.args,
      Bind.bind, Except.bind, getCExprChecked_of_lookup h0.1,
      getCExprChecked_of_lookup hc1,
      foldBoolOp_eq .land s (.cons a1 rest) cs c0 h0.2]
  · unfold visitBinaryApp
    simp [orApp, orDecl, Z3Expr.decl, Z3FuncDecl.arity, Z3Expr.args,
      Bind.bind, Except.bind, getCExprChecked_of_lookup h0.1,
      getCExprChecked_of_lookup hc1,
      foldBoolOp_eq .lor s (.cons a1 rest) cs c0 h0.2]

/-- Witness for C7: a 3-ary conjunction and disjunction over numerals whose
registry already decodes them to `a`, `b` and `3u` fold to
`(a && b) && 3u` and `(a || b) || 3u`. -/
theorem c7_witness :
    visitBinaryApp (andApp (.cons (z3BvVal 1 8)
        (.cons (z3BvVal 2 8) (.one (z3BvVal 3 8))))) sFold =
      insertCExpr sFold (andApp (.cons (z3BvVal 1 8)
        (.cons (z3BvVal 2 8) (.one (z3BvVal 3 8)))))
        (some (.binary .land (.binary .land refA refB .boolTy)
          (.intLit 3 unsignedIntTy) .boolTy)) ∧
    visitBinaryApp (orApp (.cons (z3BvVal 1 8)
        (.cons (z3BvVal 2 8) (.one (z3BvVal 3 8))))) sFold =
      insertCExpr sFold (orApp (.cons (z3BvVal 1 8)
        (.cons (z3BvVal 2 8) (.one (z3BvVal 3 8)))))
        (some (.binary .lor (.binary .lor refA refB .boolTy)
          (.intLit 3 unsignedIntTy) .boolTy)) :=
  c7_variadic_decode_left_fold sFold (z3BvVal 1 8) (z3BvVal 2 8)
    (.one (z3BvVal 3 8)) refA [refB, .intLit 3 unsignedIntTy] (by decide)

theorem insertZ3Expr_nodup {s s2 : St} {e : CExpr} {z : Z3Expr}
    (h : insertZ3Expr s e z = .ok s2) (hn : nodupKeys s.z3ExprMap) :
    nodupKeys s2.z3ExprMap := by
  unfold insertZ3Expr at h
  cases hx : alookup s.z3ExprMap e <;> rw [hx] at h
  · cases h
    simp only [nodupKeys, List.map_cons, List.nodup_cons]
    exact ⟨(alookup_eq_none_iff _ _).mp hx, hn⟩
  · cases h

theorem insertZ3Decl_maps {s s2 : St} {d : CDecl} {zd : Z3FuncDecl}
    (h : insertZ3Decl s d zd = .ok s2) :
    s2.z3ExprMap = s.z3ExprMap ∧ s2.z3DeclMap = (d, zd) :: s.z3DeclMap ∧
      s2.cDeclMap = s.cDeclMap := by
  unfold insertZ3Decl at h
  cases hx : alookup s.z3DeclMap d <;> rw [hx] at h
  · cases h; exact ⟨rfl, rfl, rfl⟩
  · cases h

theorem insertCValDecl_maps {s s2 : St} {zd : Z3FuncDecl} {d : CDecl}
    (h : insertCValDecl s zd d = .ok s2) :
    s2.z3ExprMap = s.z3ExprMap ∧ s2.z3DeclMap = s.z3DeclMap ∧
      s2.cDeclMap = (zd, d) :: s.cDeclMap := by
  unfold insertCValDecl at h
  cases hx : alookup s.cDeclMap zd <;> rw [hx] at h
  · cases h; exact ⟨rfl, rfl, rfl⟩
  · cases h

theorem visitDecl_exprMap {d : CDecl} {s s2 : St}
    (h : visitDecl d s = .ok s2) : s2.z3ExprMap = s.z3ExprMap := by
  unfold visitDecl at h
  cases d <;> dsimp only at h
  case var =>
    split at h
    · cases h; rfl
    · obtain ⟨zsort, hz, h⟩ := except_bind_ok h
      exact (insertZ3Decl_maps h).1
  case field =>
    split at h
    · cases h; rfl
    · obtain ⟨zsort, hz, h⟩ := except_bind_ok h
      exact (insertZ3Decl_maps h).1
  case funcDecl => cases h

theorem getOrCreateZ3Decl_exprMap {d : CDecl} {s s2 : St} {zd : Z3FuncDecl}
    (h : getOrCreateZ3Decl d s = .ok (zd, s2)) :
    s2.z3ExprMap = s.z3ExprMap := by
  unfold getOrCreateZ3Decl at h
  obtain ⟨s1, hs1, h⟩ := except_bind_ok h
  obtain ⟨zd1, hzd1, h⟩ := except_bind_ok h
  obtain ⟨s3, hs3, h⟩ := except_bind_ok h
  have e1 : s1.z3ExprMap = s.z3ExprMap := by
    split at hs1
    · cases hs1; rfl
    · exact visitDecl_exprMap hs1
  have e3 : s3.z3ExprMap = s1.z3ExprMap := by
    split at hs3
    · cases hs3; rfl
    · exact (insertCValDecl_maps hs3).1
  have hss : s3 = s2 := by cases h; rfl
  rw [← hss, e3, e1]
theorem forward_nodup (fuel : Nat) :
    (∀ e s s2, visitStmt fuel e s = .ok s2 →
      nodupKeys s.z3ExprMap → nodupKeys s2.z3ExprMap) ∧
    (∀ e s r, getOrCreateZ3Expr fuel e s = .ok r →
      nodupKeys s.z3ExprMap → nodupKeys r.2.z3ExprMap) := by
  induction fuel with
  | zero =>
    constructor
    · intro e s s2 h; rw [visitStmt] at h; cases h
    · intro e s r h; rw [getOrCreateZ3Expr] at h; cases h
  | succ fuel ih =>
    constructor
    · intro e s s2 h hn
      cases e
      case intLit v ty =>
        rw [visitStmt] at h
        split at h
        · cases h; exact hn
        · obtain ⟨zSort, hz, h⟩ := except_bind_ok h
          split at h
          · exact insertZ3Expr_nodup h hn
          · obtain ⟨zVal, hv, h⟩ := except_bind_ok h
            exact insertZ3Expr_nodup h hn
      case charLit v ty =>
        rw [visitStmt] at h
        split at h
        · cases h; exact hn
        · obtain ⟨zSort, hz, h⟩ := except_bind_ok h
          obtain ⟨zVal, hv, h⟩ := except_bind_ok h
          exact insertZ3Expr_nodup h hn
      case floatLit bits ty =>
        rw [visitStmt] at h
        split at h
        · cases h; exact hn
        · cases h; exact hn
      case declRef d =>
        rw [visitStmt] at h
        split at h
        · cases h; exact hn
        · dsimp only at h
          obtain ⟨p, hp, h⟩ := except_bind_ok h
          obtain ⟨zc, s1⟩ := p
          dsimp only at h
          have e1 := getOrCreateZ3Decl_exprMap hp
          rw [← e1] at hn
          exact insertZ3Expr_nodup h hn
      case parenE sub =>
        rw [visitStmt] at h
        split at h
        · cases h; exact hn
        · dsimp only at h
          obtain ⟨p, hp, h⟩ := except_bind_ok h
          obtain ⟨zSub, s1⟩ := p
          have hn1 := ih.2 sub s (zSub, s1) hp hn
          dsimp only at h hn1
          cases hk : zSub.decl.kind <;> rw [hk] at h <;> dsimp only at h <;>
            exact insertZ3Expr_nodup h hn1
      case unary op sub ty =>
        rw [visitStmt] at h
        split at h
        · cases h; exact hn
        · dsimp only at h
          obtain ⟨p, hp, h⟩ := except_bind_ok h
          obtain ⟨operand, s1⟩ := p
          have hn1 := ih.2 sub s (operand, s1) hp hn
          dsimp only at h hn1
          cases op <;> dsimp only at h
          case lnot =>
            obtain ⟨c, hc, h⟩ := except_bind_ok h
            exact insertZ3Expr_nodup h hn1
          case addrOf =>
            obtain ⟨ptrSort, hps, h⟩ := except_bind_ok h
            exact insertZ3Expr_nodup h hn1
          case deref =>
            obtain ⟨elmSort, hes, h⟩ := except_bind_ok h
            exact insertZ3Expr_nodup h hn1
          case otherU => cases h
      case binary op l r ty =>
        rw [visitStmt] at h
        split at h
        · cases h; exact hn
        · dsimp only at h
          obtain ⟨p1, hp1, h⟩ := except_bind_ok h
          obtain ⟨lhs, s1⟩ := p1
          have hn1 := ih.2 l s (lhs, s1) hp1 hn
          dsimp only at h hn1
          obtain ⟨p2, hp2, h⟩ := except_bind_ok h
          obtain ⟨rhs, s3⟩ := p2
          have hn3 := ih.2 r s1 (rhs, s3) hp2 hn1
          dsimp only at h hn3
          cases op <;> dsimp only at h
          case land =>
            obtain ⟨cl, hcl, h⟩ := except_bind_ok h
            obtain ⟨cr, hcr, h⟩ := except_bind_ok h
            exact insertZ3Expr_nodup h hn3
          case lor =>
            obtain ⟨cl, hcl, h⟩ := except_bind_ok h
            obtain ⟨cr, hcr, h⟩ := except_bind_ok h
            exact insertZ3Expr_nodup h hn3
          case beq => exact insertZ3Expr_nodup h hn3
          case bne => exact insertZ3Expr_nodup h hn3
          case rem => exact insertZ3Expr_nodup h hn3
          case add => exact insertZ3Expr_nodup h hn3
          case sub => exact insertZ3Expr_nodup h hn3
          case bAnd => exact insertZ3Expr_nodup h hn3
          case bXor => exact insertZ3Expr_nodup h hn3
          case shr => exact insertZ3Expr_nodup h hn3
          case otherB => cases h
      case cstyleCast kind ty sub =>
        rw [visitStmt] at h
        split at h
        · cases h; exact hn
        · dsimp only at h
          obtain ⟨p, hp, h⟩ := except_bind_ok h
          obtain ⟨zSub, s1⟩ := p
          have hn1 := ih.2 sub s (zSub, s1) hp hn
          dsimp only at h hn1
          obtain ⟨zCast, hc, h⟩ := except_bind_ok h
          cases kind <;> dsimp only at h
          case integralCast => exact insertZ3Expr_nodup h hn1
          case nullToPointer => exact insertZ3Expr_nodup h hn1
          case pointerToIntegral => exact insertZ3Expr_nodup h hn1
          case integralToPointer => exact insertZ3Expr_nodup h hn1
          case arrayToPointerDecay => cases h
          case otherCast => cases h
      case implicitCast kind ty sub =>
        rw [visitStmt] at h
        split at h
        · cases h; exact hn
        · dsimp only at h
          obtain ⟨p, hp, h⟩ := except_bind_ok h
          obtain ⟨zSub, s1⟩ := p
          have hn1 := ih.2 sub s (zSub, s1) hp hn
          dsimp only at h hn1
          cases kind <;> dsimp only at h
          case arrayToPointerDecay =>
            split at h
            · cases h
            · obtain ⟨sPtr, hsp, h⟩ := except_bind_ok h
              exact insertZ3Expr_nodup h hn1
          case integralCast => cases h
          case nullToPointer => cases h
          case pointerToIntegral => cases h
          case integralToPointer => cases h
          case otherCast => cases h
      case arraySubscript base idx ty =>
        rw [visitStmt] at h
        split at h
        · cases h; exact hn
        · dsimp only at h
          obtain ⟨p1, hp1, h⟩ := except_bind_ok h
          obtain ⟨zBase, s1⟩ := p1
          have hn1 := ih.2 base s (zBase, s1) hp1 hn
          dsimp only at h hn1
          split at h
          · cases h
          · obtain ⟨p2, hp2, h⟩ := except_bind_ok h
            obtain ⟨zIdx, s3⟩ := p2
            have hn3 := ih.2 idx s1 (zIdx, s3) hp2 hn1
            dsimp only at h hn3
            split at h
            · cases h
            · obtain ⟨elmSort, hes, h⟩ := except_bind_ok h
              exact insertZ3Expr_nodup h hn3
      case memberE base fld ty =>
        rw [visitStmt] at h
        split at h
        · cases h; exact hn
        · dsimp only at h
          obtain ⟨p1, hp1, h⟩ := except_bind_ok h
          obtain ⟨zMemDecl, s1⟩ := p1
          have e1 := getOrCreateZ3Decl_exprMap hp1
          rw [← e1] at hn
          dsimp only at h
          obtain ⟨p2, hp2, h⟩ := except_bind_ok h
          obtain ⟨zBase, s3⟩ := p2
          have hn3 := ih.2 base s1 (zBase, s3) hp2 hn
          dsimp only at h hn3
          exact insertZ3Expr_nodup h hn3
      case callE fn =>
        rw [visitStmt] at h
        split at h
        · cases h; exact hn
        · cases h
    · intro e s r h hn
      rw [getOrCreateZ3Expr] at h
      by_cases hmem : (alookup s.z3ExprMap e).isSome = true
      · rw [if_pos hmem] at h
        simp only [Bind.bind, Except.bind] at h
        cases hgz : getZ3ExprE s e with
        | error m => rw [hgz] at h; cases h
        | ok z =>
          rw [hgz] at h
          have hr := Except.ok.inj h
          rw [← hr]
          exact hn
      · rw [if_neg hmem] at h
        simp only [Bind.bind, Except.bind] at h
        cases hv : visitStmt fuel e s with
        | error m => rw [hv] at h; cases h
        | ok s1 =>
          rw [hv] at h
          simp only [Except.bind] at h
          have hn1 := ih.1 e s s1 hv hn
          cases hgz : getZ3ExprE s1 e with
          | error m => rw [hgz] at h; cases h
          | ok z =>
            rw [hgz] at h
            have hr := Except.ok.inj h
            rw [← hr]
            exact hn1

theorem getZ3ExprE_ok_iff {s : St} {e : CExpr} {z : Z3Expr} :
    getZ3ExprE s e = .ok z ↔ alookup s.z3ExprMap e = some z := by
  unfold getZ3ExprE
  cases hx : alookup s.z3ExprMap e <;> simp

theorem getZ3DeclE_ok_iff {s : St} {d : CDecl} {zd : Z3FuncDecl} :
    getZ3DeclE s d = .ok zd ↔ alookup s.z3DeclMap d = some zd := by
  unfold getZ3DeclE
  cases hx : alookup s.z3DeclMap d <;> simp

theorem getCExprE_ok_iff {s : St} {z : Z3Expr} {c : Option CExpr} :
    getCExprE s z = .ok c ↔ alookup s.cExprMap (z3Hash z) = some c := by
  unfold getCExprE
  cases hx : alookup s.cExprMap (z3Hash z) <;> simp

theorem getOrCreateZ3Expr_post {fuel : Nat} {e : CExpr} {s : St}
    {r : Z3Expr × St} (h : getOrCreateZ3Expr fuel e s = .ok r) :
    alookup r.2.z3ExprMap e = some r.1 := by
  cases fuel with
  | zero => rw [getOrCreateZ3Expr] at h; cases h
  | succ fuel =>
    rw [getOrCreateZ3Expr] at h
    by_cases hmem : (alookup s.z3ExprMap e).isSome = true
    · rw [if_pos hmem] at h
      simp only [Bind.bind, Except.bind] at h
      cases hgz : getZ3ExprE s e with
      | error m => rw [hgz] at h; cases h
      | ok z1 =>
        rw [hgz] at h
        rw [← Except.ok.inj h]
        exact getZ3ExprE_ok_iff.mp hgz
    · rw [if_neg hmem] at h
      simp only [Bind.bind, Except.bind] at h
      cases hv : visitStmt fuel e s with
      | error m => rw [hv] at h; cases h
      | ok s1 =>
        rw [hv] at h
        simp only [Except.bind] at h
        cases hgz : getZ3ExprE s1 e with
        | error m => rw [hgz] at h; cases h
        | ok z1 =>
          rw [hgz] at h
          rw [← Except.ok.inj h]
          exact getZ3ExprE_ok_iff.mp hgz

theorem getOrCreateZ3Expr_idem {fuel : Nat} {e : CExpr} {s : St}
    {r : Z3Expr × St} (h : getOrCreateZ3Expr fuel e s = .ok r) :
    getOrCreateZ3Expr fuel e r.2 = .ok (r.1, r.2) := by
  have hl := getOrCreateZ3Expr_post h
  cases fuel with
  | zero => rw [getOrCreateZ3Expr] at h; cases h
  | succ fuel =>
    rw [getOrCreateZ3Expr]
    rw [if_pos (by rw [hl]; rfl)]
    have hz : getZ3ExprE r.2 e = .ok r.1 := getZ3ExprE_ok_iff.mpr hl
    simp only [Bind.bind, Except.bind, hz]

theorem getOrCreateCExpr_post {fuel : Nat} {z : Z3Expr} {s : St}
    {r : Option CExpr × St} (h : getOrCreateCExpr fuel z s = .ok r) :
    alookup r.2.cExprMap (z3Hash z) = some r.1 := by
  cases fuel with
  | zero => rw [getOrCreateCExpr] at h; cases h
  | succ fuel =>
    rw [getOrCreateCExpr] at h
    by_cases hmem : (alookup s.cExprMap (z3Hash z)).isSome = true
    · rw [if_pos hmem] at h
      simp only [Bind.bind, Except.bind] at h
      cases hgz : getCExprE s z with
      | error m => rw [hgz] at h; cases h
      | ok c1 =>
        rw [hgz] at h
        rw [← Except.ok.inj h]
        exact getCExprE_ok_iff.mp hgz
    · rw [if_neg hmem] at h
      simp only [Bind.bind, Except.bind] at h
      cases hv : visitZ3Expr fuel z s with
      | error m => rw [hv] at h; cases h
      | ok s1 =>
        rw [hv] at h
        simp only [Except.bind] at h
        cases hgz : getCExprE s1 z with
        | error m => rw [hgz] at h; cases h
        | ok c1 =>
          rw [hgz] at h
          rw [← Except.ok.inj h]
          exact getCExprE_ok_iff.mp hgz

theorem getOrCreateCExpr_idem {fuel : Nat} {z : Z3Expr} {s : St}
    {r : Option CExpr × St} (h : getOrCreateCExpr fuel z s = .ok r) :
    getOrCreateCExpr fuel z r.2 = .ok (r.1, r.2) := by
  have hl := getOrCreateCExpr_post h
  cases fuel with
  | zero => rw [getOrCreateCExpr] at h; cases h
  | succ fuel =>
    rw [getOrCreateCExpr]
    rw [if_pos (by rw [hl]; rfl)]
    have hc : getCExprE r.2 z = .ok r.1 := getCExprE_ok_iff.mpr hl
    simp only [Bind.bind, Except.bind, hc]

theorem getOrCreateZ3Decl_idem {d : CDecl} {s : St} {r : Z3FuncDecl × St}
    (h : getOrCreateZ3Decl d s = .ok r) :
    getOrCreateZ3Decl d r.2 = .ok (r.1, r.2) := by
  unfold getOrCreateZ3Decl at h ⊢
  obtain ⟨s1, hs1, h⟩ := except_bind_ok h
  obtain ⟨zd1, hzd1, h⟩ := except_bind_ok h
  obtain ⟨s3, hs3, h⟩ := except_bind_ok h
  have hdm : alookup s3.z3DeclMap d = some zd1 := by
    have h1 := getZ3DeclE_ok_iff.mp hzd1
    split at hs3
    · cases hs3; exact h1
    · rw [(insertCValDecl_maps hs3).2.1]; exact h1
  have hcm : (alookup s3.cDeclMap zd1).isSome = true := by
    split at hs3
    · cases hs3; assumption
    · rw [(insertCValDecl_maps hs3).2.2, alookup_cons, if_pos rfl]; rfl
  have hr : r = (zd1, s3) := (Except.ok.inj h).symm
  subst hr
  rw [if_pos (by rw [hdm]; rfl)]
  have hz : getZ3DeclE s3 d = .ok zd1 := getZ3DeclE_ok_iff.mpr hdm
  simp only [Bind.bind, Except.bind, hz]
  rw [if_pos hcm]

/-- C5: the public get-or-create accessors are memoized and idempotent:
immediately re-running any of the three accessors (expression-to-term,
declaration-to-symbol, term-to-expression) on its own output state returns
the identical result and leaves the state unchanged; and translating a
previously unseen expression records exactly one registry entry for it. -/
theorem c5_accessors_memoized_idempotent :
    (∀ (fuel : Nat) (e : CExpr) (s : St) (r : Z3Expr × St),
      getOrCreateZ3Expr fuel e s = .ok r →
      getOrCreateZ3Expr fuel e r.2 = .ok (r.1, r.2)) ∧
    (∀ (d : CDecl) (s : St) (r : Z3FuncDecl × St),
      getOrCreateZ3Decl d s = .ok r →
      getOrCreateZ3Decl d r.2 = .ok (r.1, r.2)) ∧
    (∀ (fuel : Nat) (z : Z3Expr) (s : St) (r : Option CExpr × St),
      getOrCreateCExpr fuel z s = .ok r →
      getOrCreateCExpr fuel z r.2 = .ok (r.1, r.2)) ∧
    (∀ (fuel : Nat) (e : CExpr) (s : St) (r : Z3Expr × St),
      nodupKeys s.z3ExprMap → alookup s.z3ExprMap e = none →
      getOrCreateZ3Expr fuel e s = .ok r →
      countKey r.2.z3ExprMap e = 1) := by
  refine ⟨?_, ?_, ?_, ?_⟩
  · intro fuel e s r h
    exact getOrCreateZ3Expr_idem h
  · intro d s r h
    exact getOrCreateZ3Decl_idem h
  · intro fuel z s r h
    exact getOrCreateCExpr_idem h
  · intro fuel e s r hn habs h
    exact countKey_eq_one_of_nodup ((forward_nodup fuel).2 e s r h hn)
      (getOrCreateZ3Expr_post h)

/-- Witness for C5 at concrete inputs: re-running the accessors on the
context `stA` produced by encoding `a` returns the same outputs and state,
and encoding `a` in the empty context records exactly one entry for it. -/
theorem c5_witness :
    getOrCreateZ3Expr 4 refA stA = .ok (zA, stA) ∧
    getOrCreateZ3Decl varA stA = .ok (declA, stA) ∧
    getOrCreateCExpr 4 zA { stA with cExprMap := [(z3Hash zA, some refA)] } =
      .ok (some refA, { stA with cExprMap := [(z3Hash zA, some refA)] }) ∧
    countKey stA.z3ExprMap refA = 1 :=
  ⟨c5_accessors_memoized_idempotent.1 4 refA St.empty (zA, stA) (by decide),
   c5_accessors_memoized_idempotent.2.1 varA stA (declA, stA) (by decide),
   c5_accessors_memoized_idempotent.2.2.1 4 zA stA
     (some refA, { stA with cExprMap := [(z3Hash zA, some refA)] })
     (by decide),
   c5_accessors_memoized_idempotent.2.2.2 4 refA St.empty (zA, stA)
     (by decide) (by decide) (by decide)⟩

/-- C1 counterexample: the forward translator accepts `a - b` (32-bit
signed variables), but decoding the encoded term is fatal — the reverse
translator has no case for bitvector subtraction — so
`expression (term E)` is not equivalent to `E` for every accepted binary
operator. -/
theorem c1_counterexample :
    roundTrip 16 (.binary .sub refA refB (.intTy true 32)) =
      .error "Unknown Z3 binary operator!" := by decide

/-- C1 amended: the round trip restores the operator and operand structure
for the binary operators the reverse translator decodes — `+`, `%`, `==`
(typed boolean), and `&&` / `||` up to the documented boolean-cast rewrite
of the operands (each operand decodes as `!(x == 0u)`); for `-`, `&`, `^`,
`>>` and `!=` the encoded term's decoding is fatal. -/
theorem c1_round_trip_by_operator :
    roundTrip 16 (.binary .add refA refB (.intTy true 32)) =
      .ok (some (.binary .add refA refB (.intTy true 32))) ∧
    roundTrip 16 (.binary .rem refA refB (.intTy true 32)) =
      .ok (some (.binary .rem refA refB (.intTy true 32))) ∧
    roundTrip 16 (.binary .beq refA refB .boolTy) =
      .ok (some (.binary .beq refA refB .boolTy)) ∧
    getOrCreateZ3Expr 8 eLand St.empty = .ok (zLand, sLand) ∧
    decodeOnly 16 zLand sLand =
      .ok (some (.binary .land (decodedBoolCast refA) (decodedBoolCast refB)
        .boolTy)) ∧
    getOrCreateZ3Expr 8 eLor St.empty = .ok (zLor, sLor) ∧
    decodeOnly 16 zLor sLor =
      .ok (some (.binary .lor (decodedBoolCast refA) (decodedBoolCast refB)
        .boolTy)) ∧
    roundTrip 16 (.binary .bAnd refA refB (.intTy true 32)) =
      .error "Unknown Z3 binary operator!" ∧
    roundTrip 16 (.binary .bXor refA refB (.intTy true 32)) =
      .error "Unknown Z3 binary operator!" ∧
    roundTrip 16 (.binary .shr refA refB (.intTy true 32)) =
      .error "Unknown Z3 binary operator!" ∧
    roundTrip 16 (.binary .bne refA refB .boolTy) =
      .error "Unknown Z3 binary operator!" := by
  refine ⟨by decide, by decide, by decide, by decide, by decide, by decide,
    by decide, by decide, by decide, by decide, by decide⟩
